import Mathlib

/-!
Verification of the Unicore receiver decoder (`src/rcv/unicorecomm.c`).

The decoder is shallowly embedded: the byte buffer is a function from
offsets to byte values, IEEE-754 fields are read into exact rationals,
and the mutable `raw_t` control block becomes a state record that every
decoder maps to a new state together with its integer return code.
External RTKLIB services that are not part of this repository's sources
(satellite registry, wavelength tables, CRC-32 primitive, time helpers)
are modelled from the specification and marked as such.
-/

namespace Unicore

/-! ### Constants (values from the RTKLIB headers, modelled from the spec) -/

def UNICOREHLEN : Nat := 28
def NFREQ : Nat := 3
def NEXOBS : Nat := 0
def MAXOBS : Nat := 64
def MAXRAWLEN : Nat := 4096
def MAXVAL : ℚ := 8388608

def LLI_SLIP : Nat := 1
def LLI_HALFA : Nat := 2
def LLI_HALFC : Nat := 4

def SYS_GPS : Nat := 1
def SYS_SBS : Nat := 2
def SYS_GLO : Nat := 4
def SYS_GAL : Nat := 8
def SYS_QZS : Nat := 16
def SYS_CMP : Nat := 32

def CODE_NONE : Nat := 0
def CODE_L1C : Nat := 1
def CODE_L1P : Nat := 2
def CODE_L1B : Nat := 11
def CODE_L2C : Nat := 14
def CODE_L2X : Nat := 18
def CODE_L2W : Nat := 20
def CODE_L5I : Nat := 24
def CODE_L7I : Nat := 27
def CODE_L7Q : Nat := 28
def CODE_L8Q : Nat := 38
def CODE_L1I : Nat := 47

def CLIGHT : ℚ := 299792458
def FREQ1 : ℚ := 1575420000
def FREQ2 : ℚ := 1227600000
def FREQ5 : ℚ := 1176450000
def FREQ6 : ℚ := 1278750000
def FREQ7 : ℚ := 1207140000
def FREQ8 : ℚ := 1191795000
def FREQ1_GLO : ℚ := 1602000000
def DFRQ1_GLO : ℚ := 562500
def FREQ2_GLO : ℚ := 1246000000
def DFRQ2_GLO : ℚ := 437500

/-! ### Little-endian field readers (`U1`/`U2`/`U4`/`I4`/`R4`/`R8`) -/

def U1 (b : Nat → Nat) (i : Nat) : Nat := b i % 256

def U2 (b : Nat → Nat) (i : Nat) : Nat := U1 b i + 256 * U1 b (i+1)

def U4 (b : Nat → Nat) (i : Nat) : Nat :=
  U1 b i + 256 * U1 b (i+1) + 65536 * U1 b (i+2) + 16777216 * U1 b (i+3)

def U8 (b : Nat → Nat) (i : Nat) : Nat := U4 b i + 4294967296 * U4 b (i+4)

/-- Two's-complement reading of a 32-bit little-endian signed field. -/
def I4 (b : Nat → Nat) (i : Nat) : ℤ :=
  if U4 b i < 2147483648 then (U4 b i : ℤ) else (U4 b i : ℤ) - 4294967296

/-- Exact value of a finite IEEE-754 binary32 field; non-finite encodings
(exponent 255) lie outside the rational model and read as 0. -/
def R4 (b : Nat → Nat) (i : Nat) : ℚ :=
  let u := U4 b i
  let s := u / 2147483648
  let e := u / 8388608 % 256
  let m := u % 8388608
  if e = 255 then 0
  else
    let mag : ℚ :=
      if e = 0 then (m : ℚ) * (2:ℚ)^(-(149:ℤ))
      else ((8388608 + m : Nat) : ℚ) * (2:ℚ)^((e:ℤ) - 150)
    if s = 1 then -mag else mag

/-- Exact value of a finite IEEE-754 binary64 field; non-finite encodings
(exponent 2047) lie outside the rational model and read as 0. -/
def R8 (b : Nat → Nat) (i : Nat) : ℚ :=
  let u := U8 b i
  let s := u / 9223372036854775808
  let e := u / 4503599627370496 % 2048
  let m := u % 4503599627370496
  if e = 2047 then 0
  else
    let mag : ℚ :=
      if e = 0 then (m : ℚ) * (2:ℚ)^(-(1074:ℤ))
      else ((4503599627370496 + m : Nat) : ℚ) * (2:ℚ)^((e:ℤ) - 1075)
    if s = 1 then -mag else mag

/-- `exsign`: sign extension of a `bits`-wide field. -/
def exsign (v : Nat) (bits : Nat) : ℤ :=
  if v &&& (1 <<< (bits - 1)) ≠ 0 then (v : ℤ) - ((1 <<< bits : Nat) : ℤ) else (v : ℤ)

/-! ### Time model.  `gtime_t` is modelled as an exact rational count of
seconds; the conversion helpers live in `rtkcmn.c`, outside `src/`, and
are modelled from the spec's description of GPS/BDS time arithmetic. -/

/-- Modelled from the spec: unix second of the GPS epoch 1980-01-06. -/
def GPST0 : ℚ := 315964800

/-- Modelled from the spec: unix second of the BDS epoch 2006-01-01. -/
def BDT0 : ℚ := 1136073600

/-- Modelled from the spec: `gpst2time` builds an absolute time from a GPS
week number and a time of week in seconds. -/
def gpst2time (week : ℤ) (tow : ℚ) : ℚ := GPST0 + 604800 * (week : ℚ) + tow

/-- Modelled from the spec: `timediff` is the signed difference in seconds. -/
def timediff (a b : ℚ) : ℚ := a - b

/-- Modelled from the spec: `time2gpst` splits an absolute time into a GPS
week and the time of week. -/
def time2gpst (t : ℚ) : ℤ × ℚ :=
  let w := ⌊(t - GPST0) / 604800⌋
  (w, t - GPST0 - 604800 * (w : ℚ))

/-- Modelled from the spec: `bdt2time` builds an absolute time from a BDS
week and second of week. -/
def bdt2time (week : ℤ) (tow : ℚ) : ℚ := BDT0 + 604800 * (week : ℚ) + tow

/-- Modelled from the spec: BDT is 14 s behind GPST. -/
def bdt2gpst (t : ℚ) : ℚ := t + 14

/-- Modelled from the spec: `adjgpsweek` resolves the 10-bit week rollover
against a fixed reference week (the helper in `rtkcmn.c` uses the wall
clock; the model freezes the reference). -/
def WREF : ℤ := 2100

/-- Modelled from the spec: 10-bit GPS week rollover adjustment. -/
def adjgpsweek (week : ℤ) : ℤ := week + (WREF - week + 512) / 1024 * 1024

/-- `adjweek` (this file, lines 48-56): place `tow` in the half-week window
around `time`. -/
def adjweek (time : ℚ) (tow : ℚ) : ℚ :=
  let wp := time2gpst time
  let tow2 :=
    if tow < wp.2 - 302400 then tow + 604800
    else if tow > wp.2 + 302400 then tow - 604800
    else tow
  gpst2time wp.1 tow2

/-- Modelled from the spec: the external satellite-number registry `satno`,
mapping a (system, PRN) pair to a dense positive satellite index, 0 when
the PRN is out of the constellation's range. -/
def satno (sys : Nat) (prn : ℤ) : Nat :=
  if sys = SYS_GPS then (if 1 ≤ prn ∧ prn ≤ 32 then prn.toNat else 0)
  else if sys = SYS_GLO then (if 1 ≤ prn ∧ prn ≤ 27 then 32 + prn.toNat else 0)
  else if sys = SYS_GAL then (if 1 ≤ prn ∧ prn ≤ 36 then 59 + prn.toNat else 0)
  else if sys = SYS_QZS then (if 193 ≤ prn ∧ prn ≤ 202 then 95 + (prn - 192).toNat else 0)
  else if sys = SYS_CMP then (if 1 ≤ prn ∧ prn ≤ 63 then 105 + prn.toNat else 0)
  else if sys = SYS_SBS then (if 120 ≤ prn ∧ prn ≤ 142 then 168 + (prn - 119).toNat else 0)
  else 0

/-- Modelled from the spec: URA value table of the external `uraindex`. -/
def uravalue (i : Nat) : ℚ :=
  [(24:ℚ)/10, 34/10, 485/100, 685/100, 965/100, 1365/100, 24, 48, 96, 192,
    384, 768, 1536, 3072, 6144].getD i 0

/-- Modelled from the spec: the external URA-to-index conversion. -/
def uraindex (ura : ℚ) : Nat :=
  ((List.range 15).find? (fun i => decide (ura ≤ uravalue i))).getD 15

/-- The receiver-option string, modelled as the list of its space-separated
tokens; `strstr` is token membership. -/
def strstr (opt : List String) (s : String) : Bool := opt.contains s

/-! ### Tracking-status decoder (`decode_trackstat`) and slot policy
(`checkpri`) -/

structure TrackStat where
  freq : Nat
  sys : Nat
  code : Nat
  track : Nat
  plock : Nat
  clock : Nat
  parity : Nat
  halfc : Nat
deriving DecidableEq, Repr

/-- `decode_trackstat`: unpack the 32-bit tracking-status word; `none`
models the −1 error return (unknown system or signal type). -/
def decode_trackstat (stat : Nat) : Option TrackStat :=
  let track := stat % 32
  let plock := stat >>> 10 % 2
  let parity := stat >>> 11 % 2
  let clock := stat >>> 12 % 2
  let satsys := stat >>> 16 % 8
  let halfc := stat >>> 28 % 2
  let sigtype := stat >>> 21 % 32
  let mk : Nat → Nat → Nat → TrackStat := fun sys freq code =>
    { freq := freq, sys := sys, code := code, track := track,
      plock := plock, clock := clock, parity := parity, halfc := halfc }
  if satsys = 0 then
    if sigtype = 0 then some (mk SYS_GPS 0 CODE_L1C)
    else if sigtype = 9 then some (mk SYS_GPS 1 CODE_L2W)
    else none
  else if satsys = 5 then
    if sigtype = 0 then some (mk SYS_QZS 0 CODE_L1C)
    else if sigtype = 9 then some (mk SYS_QZS 1 CODE_L2C)
    else none
  else if satsys = 1 then
    if sigtype = 0 then some (mk SYS_GLO 0 CODE_L1C)
    else if sigtype = 5 then some (mk SYS_GLO 1 CODE_L2C)
    else none
  else if satsys = 3 then
    if sigtype = 1 then some (mk SYS_GAL 0 CODE_L1B)
    else if sigtype = 2 then some (mk SYS_GAL 0 CODE_L1C)
    else if sigtype = 17 then some (mk SYS_GAL 1 CODE_L7Q)
    else none
  else if satsys = 4 then
    if sigtype = 0 then some (mk SYS_CMP 0 CODE_L1I)
    else if sigtype = 17 then some (mk SYS_CMP 1 CODE_L7I)
    else none
  else if satsys = 2 then
    if sigtype = 0 then some (mk SYS_SBS 0 CODE_L1C)
    else if sigtype = 6 then some (mk SYS_SBS 2 CODE_L5I)
    else none
  else none

/-- `checkpri`: code-priority check returning the observation slot, −1 to
drop the record. -/
def checkpri (opt : List String) (sys code freq : Nat) : ℤ :=
  let nex := NEXOBS
  if sys = SYS_GPS then
    if strstr opt "-GL1P" ∧ freq = 0 then (if code = CODE_L1P then 0 else -1)
    else if strstr opt "-GL2X" ∧ freq = 1 then (if code = CODE_L2X then 1 else -1)
    else if code = CODE_L1P then (if nex < 1 then -1 else (NFREQ : ℤ))
    else if code = CODE_L2X then (if nex < 2 then -1 else (NFREQ : ℤ) + 1)
    else (if freq < NFREQ then (freq : ℤ) else -1)
  else if sys = SYS_GLO then
    if strstr opt "-RL2C" ∧ freq = 1 then (if code = CODE_L2C then 1 else -1)
    else if code = CODE_L2C then (if nex < 1 then -1 else (NFREQ : ℤ))
    else (if freq < NFREQ then (freq : ℤ) else -1)
  else if sys = SYS_GAL then
    if strstr opt "-EL1B" ∧ freq = 0 then (if code = CODE_L1B then 0 else -1)
    else if code = CODE_L1B then (if nex < 1 then -1 else (NFREQ : ℤ))
    else if code = CODE_L8Q then (if nex < 3 then -1 else (NFREQ : ℤ) + 2)
    else (if freq < NFREQ then (freq : ℤ) else -1)
  else (if freq < NFREQ then (freq : ℤ) else -1)

/-! ### Data model: observation buffer, navigation store, `raw_t` -/

structure ObsD where
  time : ℚ := 0
  sat : Nat := 0
  L : Nat → ℚ := fun _ => 0
  P : Nat → ℚ := fun _ => 0
  D : Nat → ℚ := fun _ => 0
  SNR : Nat → Nat := fun _ => 0
  LLI : Nat → Nat := fun _ => 0
  code : Nat → Nat := fun _ => CODE_NONE

structure ObsT where
  n : Nat := 0
  data : Nat → ObsD := fun _ => {}

structure EphT where
  sat : Nat := 0
  iode : ℤ := 0
  iodc : ℤ := 0
  sva : Nat := 0
  svh : ℤ := 0
  week : ℤ := 0
  codeBits : ℤ := 0
  toe : ℚ := 0
  toc : ℚ := 0
  ttr : ℚ := 0
  A : ℚ := 0
  e : ℚ := 0
  i0 : ℚ := 0
  OMG0 : ℚ := 0
  omg : ℚ := 0
  M0 : ℚ := 0
  deln : ℚ := 0
  OMGd : ℚ := 0
  idot : ℚ := 0
  crcv : ℚ := 0
  crs : ℚ := 0
  cuc : ℚ := 0
  cus : ℚ := 0
  cic : ℚ := 0
  cis : ℚ := 0
  toes : ℚ := 0
  f0 : ℚ := 0
  f1 : ℚ := 0
  f2 : ℚ := 0
  tgd0 : ℚ := 0
  tgd1 : ℚ := 0
deriving DecidableEq

structure GephT where
  sat : Nat := 0
  iode : ℤ := 0
  frq : ℤ := 0
  svh : ℤ := 0
  sva : Nat := 0
  age : ℤ := 0
  toe : ℚ := 0
  tof : ℚ := 0
  pos0 : ℚ := 0
  pos1 : ℚ := 0
  pos2 : ℚ := 0
  vel0 : ℚ := 0
  vel1 : ℚ := 0
  vel2 : ℚ := 0
  acc0 : ℚ := 0
  acc1 : ℚ := 0
  acc2 : ℚ := 0
  taun : ℚ := 0
  gamn : ℚ := 0
deriving DecidableEq

structure NavT where
  eph : Nat → EphT := fun _ => {}
  geph : Nat → GephT := fun _ => {}

/-- The `raw_t` control block: stream state, current epoch time, the
per-(satellite, slot) lock-state arrays, the epoch observation buffer and
the navigation store. -/
structure RawT where
  time : ℚ := 0
  buff : Nat → Nat := fun _ => 0
  len : Nat := 0
  nbyte : Nat := 0
  opt : List String := []
  tobs : Nat → Nat → ℚ := fun _ _ => 0
  lockt : Nat → Nat → ℚ := fun _ _ => 0
  halfc : Nat → Nat → Nat := fun _ _ => 0
  obs : ObsT := {}
  nav : NavT := {}
  ephsat : Nat := 0

/-- Pointwise update of a two-index array. -/
def upd2 {α : Type} (f : Nat → Nat → α) (i j : Nat) (v : α) : Nat → Nat → α :=
  fun a b => if a = i ∧ b = j then v else f a b

/-- Modelled from the spec: the external wavelength service `satwavelen`
(GLONASS channels from the navigation store, other constellations from
the carrier table; 0 when unknown, triggering the decoder's fallback). -/
def satwavelen (sat freq : Nat) (nav : NavT) : ℚ :=
  if 32 < sat ∧ sat ≤ 59 then
    if (nav.geph (sat - 33)).sat = sat then
      if freq = 0 then CLIGHT / (FREQ1_GLO + DFRQ1_GLO * ((nav.geph (sat - 33)).frq : ℚ))
      else if freq = 1 then CLIGHT / (FREQ2_GLO + DFRQ2_GLO * ((nav.geph (sat - 33)).frq : ℚ))
      else 0
    else 0
  else
    if freq = 0 then CLIGHT / FREQ1
    else if freq = 1 then CLIGHT / FREQ2
    else if freq = 2 then CLIGHT / FREQ5
    else 0

/-- The `lam_carr` carrier wavelength table. -/
def lam_carr (freq : Nat) : ℚ :=
  CLIGHT / (if freq = 0 then FREQ1 else if freq = 1 then FREQ2
    else if freq = 2 then FREQ5 else if freq = 3 then FREQ6
    else if freq = 4 then FREQ7 else FREQ8)

/-- `obsindex`: find or allocate the per-satellite entry of the epoch
buffer; −1 when the buffer already holds `MAXOBS` entries. -/
def obsindex (obs : ObsT) (time : ℚ) (sat : Nat) : ℤ × ObsT :=
  if obs.n ≥ MAXOBS then (-1, obs)
  else
    match (List.range obs.n).find? (fun i => (obs.data i).sat = sat) with
    | some i => ((i : ℤ), obs)
    | none =>
        let d : ObsD := { time := time, sat := sat }
        ((obs.n : ℤ), { n := obs.n + 1, data := Function.update obs.data obs.n d })

/-! ### Per-record helpers shared by the RANGE/RANGECMP loop bodies -/

/-- The loss-of-lock computation of `decode_rangeb` (lines 240-246): slip
when a prior observation exists (stored time nonzero) and the lock time
regressed against the elapsed time. -/
def lli_slip_range (tprev lkprev t lockt : ℚ) : Nat :=
  if tprev ≠ 0 then
    (if lockt - lkprev + 5/100 ≤ t - tprev then LLI_SLIP else 0)
  else 0

/-- The loss-of-lock computation of `decode_rangecmpb` (lines 323-329),
with the 65535.968 s saturation guard on the 21-bit lock time. -/
def lli_slip_rangecmp (tprev lkprev t lockt : ℚ) : Nat :=
  if tprev ≠ 0 then
    (if lockt < 65535968/1000 ∧ lockt - lkprev + 5/100 ≤ t - tprev then LLI_SLIP else 0)
  else 0

/-- OR-ing of the half-cycle flags into the LLI byte (lines 247-248 and
330-331). -/
def lli_flags (lli parity halfc : Nat) : Nat :=
  let l1 := if parity = 0 then lli ||| LLI_HALFC else lli
  if halfc ≠ 0 then l1 ||| LLI_HALFA else l1

/-- Zeroing of unlocked measurements (lines 253-254 and 337-338): drop the
pseudorange without code lock, drop carrier and Doppler without phase
lock.  Returns (P, carrier, Doppler). -/
def zero_unlock (clock plock : Nat) (psr adr dop : ℚ) : ℚ × ℚ × ℚ :=
  (if clock = 0 then 0 else psr,
   if plock = 0 then 0 else adr,
   if plock = 0 then 0 else dop)

/-- The C cast of a nonnegative double to `unsigned char`: truncate toward
zero and keep the low 8 bits. -/
def c_uchar (x : ℚ) : Nat := (⌊x⌋).toNat % 256

/-- The SNR byte stored by both decoders (lines 263-264 and 347-348). -/
def snr_byte (snr : ℚ) : Nat :=
  if 0 ≤ snr ∧ snr < 255 then c_uchar (snr * 4 + 1/2) else 0

/-- `adr_rolls` of `decode_rangecmpb` (line 318). -/
def adr_rolls (psr wavelen adr : ℚ) : ℚ := (psr / wavelen + adr) / MAXVAL

/-- The ADR roll reconstruction of `decode_rangecmpb` (line 319). -/
def adr_reconstruct (psr wavelen adr : ℚ) : ℚ :=
  -adr + MAXVAL *
    ((⌊adr_rolls psr wavelen adr +
        (if adr_rolls psr wavelen adr ≤ 0 then -(1/2 : ℚ) else 1/2)⌋ : ℤ) : ℚ)

/-- Epoch flush (lines 256-258 and 340-342): clear the buffer when the
record time differs from the buffer head by more than 1 ns. -/
def epoch_flush (obs : ObsT) (time : ℚ) : ObsT :=
  if |timediff (obs.data 0).time time| > 1/1000000000 then { obs with n := 0 } else obs

/-- Write one decoded signal into the epoch buffer entry (lines 259-267
and 343-351). -/
def store_obs (obs : ObsT) (time : ℚ) (sat pos : Nat)
    (L P dop : ℚ) (snr : ℚ) (lli code : Nat) : ObsT :=
  let r := obsindex obs time sat
  if r.1 < 0 then r.2
  else
    let i := r.1.toNat
    let d := r.2.data i
    let d2 : ObsD :=
      { d with
        L := Function.update d.L pos L,
        P := Function.update d.P pos P,
        D := Function.update d.D pos dop,
        SNR := Function.update d.SNR pos (snr_byte snr),
        LLI := Function.update d.LLI pos lli,
        code := Function.update d.code pos code }
    { r.2 with data := Function.update r.2.data i d2 }

/-! ### RANGE decoder (`decode_rangeb`) -/

/-- One iteration of the `decode_rangeb` record loop; `off` is the byte
offset of the 44-byte record. -/
def rangeb_rec (raw : RawT) (off : Nat) : RawT :=
  match decode_trackstat (U4 raw.buff (off + 40)) with
  | none => raw
  | some ts =>
    let posz := checkpri raw.opt ts.sys ts.code ts.freq
    if posz < 0 then raw
    else
      let pos := posz.toNat
      let prn : ℤ := if ts.sys = SYS_GLO then (U2 raw.buff off : ℤ) - 37 else (U2 raw.buff off : ℤ)
      let sat := satno ts.sys prn
      if sat = 0 then raw
      else if ts.sys = SYS_GLO ∧ ts.parity = 0 then raw
      else
        let gfrq := U2 raw.buff (off + 2)
        let psr := R8 raw.buff (off + 4)
        let adr := R8 raw.buff (off + 16)
        let dop := R4 raw.buff (off + 28)
        let snr := R4 raw.buff (off + 32)
        let lockt := R4 raw.buff (off + 36)
        let nav2 :=
          if ts.sys = SYS_GLO ∧ (raw.nav.geph (prn - 1).toNat).sat ≠ sat then
            { raw.nav with
              geph := Function.update raw.nav.geph (prn - 1).toNat
                { raw.nav.geph (prn - 1).toNat with frq := (gfrq : ℤ) - 7 } }
          else raw.nav
        let lli0 := lli_slip_range (raw.tobs (sat - 1) pos) (raw.lockt (sat - 1) pos) raw.time lockt
        let lli := lli_flags lli0 ts.parity ts.halfc
        let tobs2 := upd2 raw.tobs (sat - 1) pos raw.time
        let lockt2 := upd2 raw.lockt (sat - 1) pos lockt
        let halfc2 := upd2 raw.halfc (sat - 1) pos ts.halfc
        let v := zero_unlock ts.clock ts.plock psr adr dop
        let obs1 := epoch_flush raw.obs raw.time
        let obs2 := store_obs obs1 raw.time sat pos (-v.2.1) v.1 v.2.2 snr lli ts.code
        { raw with nav := nav2, tobs := tobs2, lockt := lockt2, halfc := halfc2, obs := obs2 }

/-- `decode_rangeb`: length check, then the record loop; always returns 1
once the length check passes. -/
def decode_rangeb (raw : RawT) : ℤ × RawT :=
  let nobs := U4 raw.buff UNICOREHLEN
  if raw.len < UNICOREHLEN + 4 + nobs * 44 then (-1, raw)
  else (1, (List.range nobs).foldl (fun r i => rangeb_rec r (UNICOREHLEN + 4 + 44 * i)) raw)

/-! ### RANGECMP decoder (`decode_rangecmpb`) -/

/-- One iteration of the `decode_rangecmpb` record loop; `off` is the byte
offset of the 24-byte compressed record. -/
def rangecmpb_rec (raw : RawT) (off : Nat) : RawT :=
  match decode_trackstat (U4 raw.buff off) with
  | none => raw
  | some ts =>
    let posz := checkpri raw.opt ts.sys ts.code ts.freq
    if posz < 0 then raw
    else
      let pos := posz.toNat
      let prn : ℤ := if ts.sys = SYS_GLO then (U1 raw.buff (off + 17) : ℤ) - 37 else (U1 raw.buff (off + 17) : ℤ)
      let sat := satno ts.sys prn
      if sat = 0 then raw
      else if ts.sys = SYS_GLO ∧ ts.parity = 0 then raw
      else
        let dop := (exsign (U4 raw.buff (off + 4) &&& 0xFFFFFFF) 28 : ℚ) / 256
        let psr := ((U4 raw.buff (off + 7) >>> 4 : Nat) : ℚ) / 128 + (U1 raw.buff (off + 11) : ℚ) * 2097152
        let wl0 := satwavelen sat ts.freq raw.nav
        let wavelen :=
          if wl0 ≤ 0 then
            (if ts.sys = SYS_GLO then CLIGHT / (if ts.freq = 0 then FREQ1_GLO else FREQ2_GLO)
             else lam_carr ts.freq)
          else wl0
        let adr0 := (I4 raw.buff (off + 12) : ℚ) / 256
        let adr := adr_reconstruct psr wavelen adr0
        let lockt := ((U4 raw.buff (off + 18) &&& 0x1FFFFF : Nat) : ℚ) / 32
        let lli0 := lli_slip_rangecmp (raw.tobs (sat - 1) pos) (raw.lockt (sat - 1) pos) raw.time lockt
        let lli := lli_flags lli0 ts.parity ts.halfc
        let tobs2 := upd2 raw.tobs (sat - 1) pos raw.time
        let lockt2 := upd2 raw.lockt (sat - 1) pos lockt
        let halfc2 := upd2 raw.halfc (sat - 1) pos ts.halfc
        let snr := ((U2 raw.buff (off + 20) &&& 0x3FF : Nat) >>> 5 : ℚ) + 20
        let v := zero_unlock ts.clock ts.plock psr adr dop
        let obs1 := epoch_flush raw.obs raw.time
        let obs2 := store_obs obs1 raw.time sat pos v.2.1 v.1 v.2.2 snr lli ts.code
        { raw with tobs := tobs2, lockt := lockt2, halfc := halfc2, obs := obs2 }

/-- `decode_rangecmpb`: length check, then the record loop; always returns
1 once the length check passes. -/
def decode_rangecmpb (raw : RawT) : ℤ × RawT :=
  let nobs := U4 raw.buff UNICOREHLEN
  if raw.len < UNICOREHLEN + 4 + nobs * 24 then (-1, raw)
  else (1, (List.range nobs).foldl (fun r i => rangecmpb_rec r (UNICOREHLEN + 4 + 24 * i)) raw)

/-! ### Ephemeris decoders -/

/-- Field extraction and week adjustment of `decode_gpsephemb`; the body
starts at byte 28 of the frame. -/
def gpseph_of (buff : Nat → Nat) (time : ℚ) : EphT :=
  let sat := satno SYS_GPS (U2 buff 28 : ℤ)
  let tow := R8 buff 32
  let toes := R8 buff 60
  let week0 := adjgpsweek (I4 buff 52)
  let toe0 := gpst2time week0 toes
  let tt := timediff toe0 time
  let week := if tt < -302400 then week0 + 1 else if tt > 302400 then week0 - 1 else week0
  let toe := gpst2time week toes
  { sat := sat,
    svh := I4 buff 40,
    iode := I4 buff 44,
    iodc := I4 buff 188,
    week := week,
    toes := toes,
    toe := toe,
    toc := gpst2time week (R8 buff 192),
    ttr := adjweek toe tow,
    sva := uraindex (R8 buff 244),
    A := R8 buff 68, deln := R8 buff 76, M0 := R8 buff 84, e := R8 buff 92,
    omg := R8 buff 100, cuc := R8 buff 108, cus := R8 buff 116,
    crcv := R8 buff 124, crs := R8 buff 132, cic := R8 buff 140,
    cis := R8 buff 148, i0 := R8 buff 156, idot := R8 buff 164,
    OMG0 := R8 buff 172, OMGd := R8 buff 180,
    tgd0 := R8 buff 200, f0 := R8 buff 208, f1 := R8 buff 216, f2 := R8 buff 224 }

/-- `decode_gpsephemb`: length and PRN checks, consistency of the two IODE
fields, then dedup against the navigation store unless `-EPHALL`. -/
def decode_gpsephemb (raw : RawT) : ℤ × RawT :=
  if raw.len < UNICOREHLEN + 224 then (-1, raw)
  else
    let sat := satno SYS_GPS (U2 raw.buff 28 : ℤ)
    if sat = 0 then (-1, raw)
    else if I4 raw.buff 44 ≠ I4 raw.buff 48 then (-1, raw)
    else
      let eph := gpseph_of raw.buff raw.time
      if ¬ strstr raw.opt "-EPHALL" ∧
         timediff (raw.nav.eph (sat - 1)).toe eph.toe = 0 ∧
         (raw.nav.eph (sat - 1)).iode = eph.iode ∧
         (raw.nav.eph (sat - 1)).iodc = eph.iodc then (0, raw)
      else
        (2, { raw with nav := { raw.nav with eph := Function.update raw.nav.eph (sat - 1) eph },
                       ephsat := sat })

/-- Field extraction and day alignment of `decode_gloephemerisb`; the body
starts at byte 28 of the frame.  The record's `sat` field is left 0, as in
the source, where it is filled only on the store path. -/
def gloeph_of (buff : Nat → Nat) : GephT :=
  let week : ℤ := U2 buff 34
  let tow : ℚ := ((⌊(U4 buff 36 : ℚ) / 1000 + 1/2⌋ : ℤ) : ℚ)
  let toff : ℚ := U4 buff 40
  let tof0 : ℚ := (U4 buff 152 : ℚ) - toff
  let tof1 := tof0 + ((⌊tow / 86400⌋ : ℤ) : ℚ) * 86400
  let tof2 :=
    if tof1 < tow - 43200 then tof1 + 86400
    else if tof1 > tow + 43200 then tof1 - 86400
    else tof1
  { frq := (U2 buff 30 : ℤ) - 7,
    iode := ((U4 buff 48 &&& 0x7F : Nat) : ℤ),
    svh := I4 buff 52,
    pos0 := R8 buff 56, pos1 := R8 buff 64, pos2 := R8 buff 72,
    vel0 := R8 buff 80, vel1 := R8 buff 88, vel2 := R8 buff 96,
    acc0 := R8 buff 104, acc1 := R8 buff 112, acc2 := R8 buff 120,
    taun := R8 buff 128, gamn := R8 buff 144,
    age := (U4 buff 164 : ℤ),
    toe := gpst2time week tow,
    tof := gpst2time week tof2 }

/-- `decode_gloephemerisb`: length and PRN checks, then dedup on
|ΔTOE| < 1 s and health unless `-EPHALL`. -/
def decode_gloephemerisb (raw : RawT) : ℤ × RawT :=
  if raw.len < UNICOREHLEN + 144 then (-1, raw)
  else
    let prn : ℤ := (U2 raw.buff 28 : ℤ) - 37
    let sat := satno SYS_GLO prn
    if sat = 0 then (-1, raw)
    else
      let geph := gloeph_of raw.buff
      if ¬ strstr raw.opt "-EPHALL" ∧
         |timediff geph.toe (raw.nav.geph (prn - 1).toNat).toe| < 1 ∧
         geph.svh = (raw.nav.geph (prn - 1).toNat).svh then (0, raw)
      else
        (2, { raw with
              nav := { raw.nav with
                       geph := Function.update raw.nav.geph (prn - 1).toNat { geph with sat := sat } },
              ephsat := sat })

/-- Field extraction, clock selection and week adjustment of
`decode_galephemerisb`; the body starts at byte 28 of the frame. -/
def galeph_of (buff : Nat → Nat) (time : ℚ) (opt : List String) : EphT :=
  let sat := satno SYS_GAL (U4 buff 28 : ℤ)
  let rcv_fnav := U4 buff 32 % 2
  let rcv_inav := U4 buff 36 % 2
  let svh_e1b := U1 buff 40 % 4
  let svh_e5a := U1 buff 41 % 4
  let svh_e5b := U1 buff 42 % 4
  let dvs_e1b := U1 buff 43 % 2
  let dvs_e5a := U1 buff 44 % 2
  let dvs_e5b := U1 buff 45 % 2
  let toes : ℚ := U4 buff 52
  let sqrtA := R8 buff 56
  let sel_nav : Nat :=
    if strstr opt "-GALINAV" then 0
    else if strstr opt "-GALFNAV" then 1
    else if rcv_inav = 0 ∧ rcv_fnav = 1 then 1
    else 0
  let wp := time2gpst time
  let week0 := wp.1
  let toe0 := gpst2time week0 toes
  let tt := timediff toe0 time
  let week := if tt < -302400 then week0 + 1 else if tt > 302400 then week0 - 1 else week0
  let toe := gpst2time week toes
  { sat := sat,
    sva := U1 buff 46,
    iode := (U4 buff 48 : ℤ),
    iodc := (U4 buff 48 : ℤ),
    svh := ((svh_e5b <<< 7 ||| dvs_e5b <<< 6 ||| svh_e5a <<< 4 ||| dvs_e5a <<< 3 |||
             svh_e1b <<< 1 ||| dvs_e1b : Nat) : ℤ),
    codeBits := if sel_nav = 0 then ((1 <<< 0 ||| 1 <<< 9 : Nat) : ℤ) else ((1 <<< 1 ||| 1 <<< 8 : Nat) : ℤ),
    week := week,
    toes := toes,
    toe := toe,
    toc := adjweek toe (if sel_nav ≠ 0 then (U4 buff 176 : ℚ) else (U4 buff 204 : ℚ)),
    ttr := adjweek toe wp.2,
    A := sqrtA * sqrtA,
    deln := R8 buff 64, M0 := R8 buff 72, e := R8 buff 80, omg := R8 buff 88,
    cuc := R8 buff 96, cus := R8 buff 104, crcv := R8 buff 112, crs := R8 buff 120,
    cic := R8 buff 128, cis := R8 buff 136, i0 := R8 buff 144, idot := R8 buff 152,
    OMG0 := R8 buff 160, OMGd := R8 buff 168,
    f0 := if sel_nav ≠ 0 then R8 buff 180 else R8 buff 208,
    f1 := if sel_nav ≠ 0 then R8 buff 188 else R8 buff 216,
    f2 := if sel_nav ≠ 0 then R8 buff 196 else R8 buff 224,
    tgd0 := R8 buff 232, tgd1 := R8 buff 240 }

/-- `decode_galephemerisb`: length and PRN checks, then dedup on IODNav
and the data-source code bits unless `-EPHALL`. -/
def decode_galephemerisb (raw : RawT) : ℤ × RawT :=
  if raw.len < UNICOREHLEN + 220 then (-1, raw)
  else
    let sat := satno SYS_GAL (U4 raw.buff 28 : ℤ)
    if sat = 0 then (-1, raw)
    else
      let eph := galeph_of raw.buff raw.time raw.opt
      if ¬ strstr raw.opt "-EPHALL" ∧
         (raw.nav.eph (sat - 1)).iode = eph.iode ∧
         (raw.nav.eph (sat - 1)).codeBits = eph.codeBits then (0, raw)
      else
        (2, { raw with nav := { raw.nav with eph := Function.update raw.nav.eph (sat - 1) eph },
                       ephsat := sat })

/-- Field extraction and BDT→GPST conversion of `decode_bd2ephemb`; the
body starts at byte 28 of the frame. -/
def bd2eph_of (buff : Nat → Nat) (time : ℚ) : EphT :=
  let sat := satno SYS_CMP (U4 buff 28 : ℤ)
  let week : ℤ := (U4 buff 52 : ℤ)
  let toes : ℚ := U4 buff 60
  { sat := sat,
    week := week,
    sva := uraindex (R8 buff 252),
    svh := ((U4 buff 40 % 2 : Nat) : ℤ),
    tgd0 := R8 buff 200, tgd1 := R8 buff 208,
    iodc := (U4 buff 188 : ℤ),
    f0 := R8 buff 216, f1 := R8 buff 224, f2 := R8 buff 232,
    iode := (U4 buff 44 : ℤ),
    toes := toes,
    e := R8 buff 92, omg := R8 buff 100, deln := R8 buff 76, M0 := R8 buff 84,
    OMG0 := R8 buff 172, OMGd := R8 buff 180, i0 := R8 buff 156, idot := R8 buff 164,
    cuc := R8 buff 108, cus := R8 buff 116, crcv := R8 buff 124, crs := R8 buff 132,
    cic := R8 buff 140, cis := R8 buff 148, A := R8 buff 68,
    toe := bdt2gpst (bdt2time week toes),
    toc := bdt2gpst (bdt2time week (U4 buff 192 : ℚ)),
    ttr := time }

/-- `decode_bd2ephemb`: length and PRN checks, then dedup on TOE, AODE and
AODC unless `-EPHALL`. -/
def decode_bd2ephemb (raw : RawT) : ℤ × RawT :=
  if raw.len < UNICOREHLEN + 232 then (-1, raw)
  else
    let sat := satno SYS_CMP (U4 raw.buff 28 : ℤ)
    if sat = 0 then (-1, raw)
    else
      let eph := bd2eph_of raw.buff raw.time
      if ¬ strstr raw.opt "-EPHALL" ∧
         timediff (raw.nav.eph (sat - 1)).toe eph.toe = 0 ∧
         (raw.nav.eph (sat - 1)).iode = eph.iode ∧
         (raw.nav.eph (sat - 1)).iodc = eph.iodc then (0, raw)
      else
        (2, { raw with nav := { raw.nav with eph := Function.update raw.nav.eph (sat - 1) eph },
                       ephsat := sat })

/-! ### Top-level dispatch (`decode_unicore`) -/

/-- One byte of the reflected CRC-32 (polynomial 0xEDB88320). -/
def crc32_byte (c : Nat) : Nat :=
  (List.range 8).foldl (fun c _ => if c % 2 = 1 then (c >>> 1) ^^^ 0xEDB88320 else c >>> 1) c

/-- Modelled from the spec: the external CRC-32 primitive `rtk_crc32`
(reflected, polynomial 0xEDB88320, zero initial value) over the first
`len` bytes. -/
def rtk_crc32 (buff : Nat → Nat) (len : Nat) : Nat :=
  (List.range len).foldl (fun c i => crc32_byte (c ^^^ U1 buff i)) 0

/-- `decode_unicore`: CRC check, week extraction (zero rejected), epoch
time stamping, then dispatch on the message id. -/
def decode_unicore (raw : RawT) : ℤ × RawT :=
  let type := U2 raw.buff 4
  if rtk_crc32 raw.buff raw.len ≠ U4 raw.buff raw.len then (-1, raw)
  else
    let week0 := U2 raw.buff 14
    if week0 = 0 then (-1, raw)
    else
      let week := adjgpsweek (week0 : ℤ)
      let tow : ℚ := (U4 raw.buff 16 : ℚ) / 1000
      let raw1 := { raw with time := gpst2time week tow }
      if type = 43 then decode_rangeb raw1
      else if type = 140 then decode_rangecmpb raw1
      else if type = 7 then decode_gpsephemb raw1
      else if type = 723 then decode_gloephemerisb raw1
      else if type = 1122 then decode_galephemerisb raw1
      else if type = 1047 then decode_bd2ephemb raw1
      else (0, raw1)

/-! ### File entry point (`input_unicoref`) -/

/-- A file: its size, its content as a byte function, and the read
position. -/
structure FileT where
  size : Nat := 0
  byteAt : Nat → Nat := fun _ => 0
  pos : Nat := 0

/-- `fgetc`: read one byte, or fail at end of file (position unchanged). -/
def fgetc (fp : FileT) : Option Nat × FileT :=
  if fp.pos < fp.size then (some (fp.byteAt fp.pos % 256), { fp with pos := fp.pos + 1 })
  else (none, fp)

/-- `fread(buff+off, n, 1, fp)`: an all-or-nothing bulk read; a short read
consumes the remainder of the file and fails. -/
def freadInto (buff : Nat → Nat) (off : Nat) (fp : FileT) (n : Nat) :
    Option ((Nat → Nat) × FileT) :=
  if fp.pos + n ≤ fp.size then
    some (fun i => if off ≤ i ∧ i < off + n then fp.byteAt (fp.pos + (i - off)) % 256 else buff i,
          { fp with pos := fp.pos + n })
  else none

/-- `sync_unicore`: shift the 3-byte window and test for 0xAA 0x44 0x12. -/
def sync_unicore (buff : Nat → Nat) (data : Nat) : (Nat → Nat) × Bool :=
  let b : Nat → Nat := fun i =>
    if i = 0 then buff 1 else if i = 1 then buff 2 else if i = 2 then data else buff i
  (b, b 0 = 0xAA ∧ b 1 = 0x44 ∧ b 2 = 0x12)

/-- Result of the byte-wise synchronization search of `input_unicoref`:
end of file, sync window exhausted (the `i>=4096` early return), or sync
found. -/
inductive SyncRes where
  | eof (raw : RawT) (fp : FileT)
  | nosync (raw : RawT) (fp : FileT)
  | found (raw : RawT) (fp : FileT)

def SyncRes.tag : SyncRes → Nat
  | .eof _ _ => 2
  | .nosync _ _ => 0
  | .found _ _ => 1

def SyncRes.raw : SyncRes → RawT
  | .eof r _ => r
  | .nosync r _ => r
  | .found r _ => r

def SyncRes.fp : SyncRes → FileT
  | .eof _ f => f
  | .nosync _ f => f
  | .found _ f => f

/-- The sync search loop of `input_unicoref` (lines 752-758): one `fgetc`
per unit of fuel; the C loop allows 4097 reads before the `i>=4096`
bailout. -/
def syncLoop (raw : RawT) (fp : FileT) : Nat → SyncRes
  | 0 => .nosync raw fp
  | fuel + 1 =>
      let r := fgetc fp
      match r.1 with
      | none => .eof raw r.2
      | some d =>
          let s := sync_unicore raw.buff d
          let raw2 := { raw with buff := s.1 }
          if s.2 then .found raw2 r.2 else syncLoop raw2 r.2 fuel

/-- The post-synchronization part of `input_unicoref`: bulk-read the rest
of the header, length check, bulk-read the body, decode. -/
def input_unicoref_body (raw : RawT) (fp : FileT) : ℤ × RawT × FileT :=
  match freadInto raw.buff 3 fp 7 with
  | none => (-2, raw, { fp with pos := fp.size })
  | some bf =>
      let raw1 := { raw with buff := bf.1, nbyte := 10, len := U2 bf.1 8 + UNICOREHLEN }
      if raw1.len > MAXRAWLEN - 4 then (-1, { raw1 with nbyte := 0 }, bf.2)
      else
        match freadInto raw1.buff 10 bf.2 (raw1.len - 6) with
        | none => (-2, raw1, { bf.2 with pos := bf.2.size })
        | some bf2 =>
            let raw2 := { raw1 with buff := bf2.1, nbyte := 0 }
            let r := decode_unicore raw2
            (r.1, r.2, bf2.2)

/-- `input_unicoref`: synchronize when unsynchronized (at most 4097 reads),
then read and decode one frame. -/
def input_unicoref (raw : RawT) (fp : FileT) : ℤ × RawT × FileT :=
  if raw.nbyte = 0 then
    match syncLoop raw fp 4097 with
    | .eof r f => (-2, r, f)
    | .nosync r f => (0, r, f)
    | .found r f => input_unicoref_body r f
  else input_unicoref_body raw fp

/-! ### Specification-side definitions used to compare claims against the
code -/

/-- Rounding half away from zero, the reading of `round` in the claims. -/
def roundAway (x : ℚ) : ℤ := if x < 0 then -⌊-x + 1/2⌋ else ⌊x + 1/2⌋

/-- The SNR byte as claim C7 states it: `round(snr·4)` clamped to the
unsigned 8-bit range, 0 when out of range. -/
def snr_spec_clamp (snr : ℚ) : Nat :=
  if 0 ≤ snr ∧ snr < 255 then min 255 (roundAway (snr * 4)).toNat else 0

/-- The SNR byte as amended: `round(snr·4)` reduced modulo 256 (the low
8 bits, no clamping) when `0 ≤ snr < 255`, 0 otherwise. -/
def snr_spec_mod (snr : ℚ) : Nat :=
  if 0 ≤ snr ∧ snr < 255 then (roundAway (snr * 4)).toNat % 256 else 0

/-- Byte function from a literal frame. -/
def buffOf (l : List Nat) : Nat → Nat := fun i => l.getD i 0

/-! ## Claims -/

set_option maxRecDepth 100000

/-- C1: for every assembled frame whose 4-byte little-endian trailer does
not equal the CRC-32 computed over the first `frame_size` bytes,
`decode_unicore` returns −1 and leaves every store (observation buffer,
navigation store, decoder time, lock-state arrays) unmodified. -/
theorem decode_unicore_crc_mismatch (raw : RawT)
    (h : rtk_crc32 raw.buff raw.len ≠ U4 raw.buff raw.len) :
    decode_unicore raw = (-1, raw) := by
  unfold decode_unicore
  simp only [if_pos h]

def rawC1 : RawT := { buff := fun _ => 1 }

/-- Witness for C1: a concrete frame of four `0x01` bytes whose zero-length
CRC (0) differs from its trailer. -/
theorem decode_unicore_crc_mismatch_witness :
    rtk_crc32 rawC1.buff rawC1.len ≠ U4 rawC1.buff rawC1.len ∧
    decode_unicore rawC1 = (-1, rawC1) := by
  have h : rtk_crc32 rawC1.buff rawC1.len ≠ U4 rawC1.buff rawC1.len := by decide
  exact ⟨h, decode_unicore_crc_mismatch rawC1 h⟩

/-- C3: in both the RANGE and RANGECMP decoders, the LLI slip bit is set
for a record if and only if a prior observation for the same (satellite,
slot) existed (stored time nonzero) and
`(lock_now − lock_prev) + 0.05 ≤ (t_now − t_prev)`, with the additional
requirement `lock_now < 65535.968` on the compressed path only. -/
theorem lli_slip_bit_iff (tprev lkprev t lockt : ℚ) (parity halfc : Nat) :
    (lli_flags (lli_slip_range tprev lkprev t lockt) parity halfc &&& LLI_SLIP = LLI_SLIP ↔
      tprev ≠ 0 ∧ lockt - lkprev + 5/100 ≤ t - tprev) ∧
    (lli_flags (lli_slip_rangecmp tprev lkprev t lockt) parity halfc &&& LLI_SLIP = LLI_SLIP ↔
      tprev ≠ 0 ∧ lockt < 65535968/1000 ∧ lockt - lkprev + 5/100 ≤ t - tprev) := by
  have hbit : ∀ x : Nat, x = 0 ∨ x = 1 →
      (lli_flags x parity halfc &&& LLI_SLIP = LLI_SLIP ↔ x = 1) := by
    intro x hx
    unfold lli_flags LLI_SLIP LLI_HALFC LLI_HALFA
    rcases hx with rfl | rfl <;> split_ifs <;> decide
  constructor
  · rw [hbit _ (by unfold lli_slip_range; split_ifs <;> simp [LLI_SLIP])]
    unfold lli_slip_range
    split_ifs with h1 h2
    · exact ⟨fun _ => ⟨h1, h2⟩, fun _ => rfl⟩
    · exact ⟨fun h => absurd h (by norm_num [LLI_SLIP]), fun h => absurd h.2 h2⟩
    · exact ⟨fun h => absurd h (by norm_num), fun h => absurd h.1 h1⟩
  · rw [hbit _ (by unfold lli_slip_rangecmp; split_ifs <;> simp [LLI_SLIP])]
    unfold lli_slip_rangecmp
    split_ifs with h1 h2
    · exact ⟨fun _ => ⟨h1, h2.1, h2.2⟩, fun _ => rfl⟩
    · exact ⟨fun h => absurd h (by norm_num [LLI_SLIP]), fun h => absurd ⟨h.2.1, h.2.2⟩ h2⟩
    · exact ⟨fun h => absurd h (by norm_num), fun h => absurd h.1 h1⟩

/-- Witness for C3: the slip condition realized at a concrete prior state,
through the theorem itself. -/
theorem lli_slip_bit_iff_witness :
    lli_flags (lli_slip_range 1 10 3 5) 1 0 &&& LLI_SLIP = LLI_SLIP :=
  (lli_slip_bit_iff 1 10 3 5 1 0).1.mpr ⟨by norm_num, by norm_num⟩

/-- C4: for every observation record stored by the RANGE or RANGECMP
decoder: if the code-lock bit is 0 the stored pseudorange is 0; if the
phase-lock bit is 0 the stored carrier (−ADR on the RANGE path, the
reconstructed ADR on the RANGECMP path) and Doppler are 0; if the
parity-known bit is 0 the stored LLI contains the HALFC bit; if the
half-cycle bit is 1 the stored LLI contains the HALFA bit. -/
theorem unlock_zeroing_and_half_cycle_flags (psr adr dop tprev lkprev t lockt : ℚ)
    (clock plock parity halfc : Nat) :
    (clock = 0 → (zero_unlock clock plock psr adr dop).1 = 0) ∧
    (plock = 0 → -(zero_unlock clock plock psr adr dop).2.1 = 0 ∧
                 (zero_unlock clock plock psr adr dop).2.1 = 0 ∧
                 (zero_unlock clock plock psr adr dop).2.2 = 0) ∧
    (parity = 0 →
      lli_flags (lli_slip_range tprev lkprev t lockt) parity halfc &&& LLI_HALFC = LLI_HALFC ∧
      lli_flags (lli_slip_rangecmp tprev lkprev t lockt) parity halfc &&& LLI_HALFC = LLI_HALFC) ∧
    (halfc = 1 →
      lli_flags (lli_slip_range tprev lkprev t lockt) parity halfc &&& LLI_HALFA = LLI_HALFA ∧
      lli_flags (lli_slip_rangecmp tprev lkprev t lockt) parity halfc &&& LLI_HALFA = LLI_HALFA) := by
  refine ⟨fun hc => ?_, fun hp => ?_, fun hpar => ?_, fun hh => ?_⟩
  · simp [zero_unlock, hc]
  · simp [zero_unlock, hp]
  · subst hpar
    constructor <;>
      (simp only [lli_flags, lli_slip_range, lli_slip_rangecmp] <;> split_ifs <;>
        first | decide | omega)
  · subst hh
    constructor <;>
      (simp only [lli_flags, lli_slip_range, lli_slip_rangecmp] <;> split_ifs <;>
        first | decide | omega)

/-- C7 (amended): for every observation stored by the RANGE or RANGECMP
decoder, the stored SNR byte equals round(snr·4) reduced modulo 256 (the
low 8 bits, not clamped) when 0 ≤ snr < 255, and 0 otherwise. -/
theorem snr_byte_eq_round_mod_256 (snr : ℚ) : snr_byte snr = snr_spec_mod snr := by
  unfold snr_byte snr_spec_mod c_uchar roundAway
  split_ifs with h hneg
  · exact absurd (mul_nonneg h.1 (by norm_num)) (not_le.mpr hneg)
  · rfl
  · rfl

def buffC7 : List Nat :=
  List.replicate 28 0 ++ [1,0,0,0] ++
  [5,0] ++ [0,0] ++
  List.replicate 28 0 ++
  [0,0,200,66] ++
  List.replicate 4 0 ++
  [4,28,0,0]

def rawC7 : RawT := { buff := buffOf buffC7, len := 76 }

/-- C7 counterexample: a RANGE record with C/N0 = 100 dB-Hz is stored with
SNR byte 144 = 400 mod 256, not the clamped 255 the claim requires. -/
theorem snr_clamp_counterexample :
    R4 rawC7.buff 64 = 100 ∧
    ((decode_rangeb rawC7).2.obs.data 0).SNR 0 = 144 ∧
    snr_spec_clamp (R4 rawC7.buff 64) = 255 ∧
    ((decode_rangeb rawC7).2.obs.data 0).SNR 0 ≠ snr_spec_clamp (R4 rawC7.buff 64) := by
  have h1 : ((decode_rangeb rawC7).2.obs.data 0).SNR 0 = 144 := by with_unfolding_all rfl
  have h2 : snr_spec_clamp (R4 rawC7.buff 64) = 255 := by with_unfolding_all rfl
  exact ⟨by with_unfolding_all rfl, h1, h2, by rw [h1, h2]; decide⟩

def buffC2 : List Nat :=
  List.replicate 28 0 ++ [1,0,0,0] ++
  [4,28,0,0] ++
  List.replicate 8 0 ++
  [0,255,255,255] ++
  [0] ++
  [5] ++
  List.replicate 6 0

def rawC2 : RawT := { buff := buffOf buffC2, len := 56 }

/-- C2 counterexample: a stored RANGECMP record with P = 0 and raw ADR −1
has reconstructed carrier −8388607, and
|L + adr_raw − MAXVAL·round(adr_rolls)| equals MAXVAL, violating the
claimed strict bound. -/
theorem adr_roll_counterexample :
    ((decode_rangecmpb rawC2).2.obs.data 0).P 0 = 0 ∧
    (I4 rawC2.buff 44 : ℚ) / 256 = -1 ∧
    ((decode_rangecmpb rawC2).2.obs.data 0).L 0 = -8388607 ∧
    ¬ |((decode_rangecmpb rawC2).2.obs.data 0).L 0 + (-1) -
        MAXVAL * ((roundAway (adr_rolls (((decode_rangecmpb rawC2).2.obs.data 0).P 0)
          (satwavelen 5 0 rawC2.nav) (-1)) : ℤ) : ℚ)| < MAXVAL := by
  refine ⟨by with_unfolding_all rfl, by with_unfolding_all rfl, by with_unfolding_all rfl, ?_⟩
  exact of_decide_eq_false (by with_unfolding_all rfl)

/-- Relation between the decoder's shifted floor and round-half-away: they
agree strictly above zero and differ by at most one below. -/
theorem floor_shift_vs_roundAway (x : ℚ) :
    roundAway x - 1 ≤ ⌊x + (if x ≤ 0 then -(1/2:ℚ) else 1/2)⌋ ∧
    ⌊x + (if x ≤ 0 then -(1/2:ℚ) else 1/2)⌋ ≤ roundAway x ∧
    (0 < x → ⌊x + (if x ≤ 0 then -(1/2:ℚ) else 1/2)⌋ = roundAway x) := by
  unfold roundAway
  rcases lt_trichotomy x 0 with hx | hx | hx
  · rw [if_pos (le_of_lt hx), if_pos hx]
    have ha1 : ((⌊-x + 1/2⌋ : ℤ) : ℚ) ≤ -x + 1/2 := Int.floor_le _
    have ha2 : -x + 1/2 < (⌊-x + 1/2⌋ : ℤ) + 1 := Int.lt_floor_add_one _
    refine ⟨?_, ?_, fun hpos => absurd hpos (not_lt.mpr (le_of_lt hx))⟩
    · rw [Int.le_floor]
      push_cast
      linarith
    · have hle2 : x + -(1/2 : ℚ) ≤ ((-⌊-x + 1/2⌋ : ℤ) : ℚ) := by push_cast; linarith
      calc ⌊x + -(1/2:ℚ)⌋ ≤ ⌊((-⌊-x + 1/2⌋ : ℤ) : ℚ)⌋ := Int.floor_mono hle2
        _ = -⌊-x + 1/2⌋ := Int.floor_intCast _
  · subst hx
    rw [if_pos (le_refl (0:ℚ)), if_neg (lt_irrefl (0:ℚ))]
    have hm : ⌊(0:ℚ) + -(1/2:ℚ)⌋ = -1 := by
      rw [Int.floor_eq_iff]
      norm_num
    have hp : ⌊(0:ℚ) + (1/2:ℚ)⌋ = 0 := by
      rw [Int.floor_eq_iff]
      norm_num
    rw [hm, hp]
    exact ⟨by norm_num, by norm_num, fun hpos => absurd hpos (lt_irrefl _)⟩
  · rw [if_neg (not_le.mpr hx), if_neg (not_lt.mpr (le_of_lt hx))]
    exact ⟨by omega, le_refl _, fun _ => rfl⟩

/-- C2 (amended): for every RANGECMP record that is decoded and stored,
the reconstructed carrier satisfies
|L + adr_raw − MAXVAL·k| ≤ MAXVAL with k = round((P/λ + adr_raw)/MAXVAL)
(round half away from zero), and the bound is strict whenever
(P/λ + adr_raw)/MAXVAL is positive. -/
theorem adr_reconstruct_within_one_roll (psr wl adr : ℚ) :
    |adr_reconstruct psr wl adr + adr -
      MAXVAL * ((roundAway (adr_rolls psr wl adr) : ℤ) : ℚ)| ≤ MAXVAL ∧
    (0 < adr_rolls psr wl adr →
      |adr_reconstruct psr wl adr + adr -
        MAXVAL * ((roundAway (adr_rolls psr wl adr) : ℤ) : ℚ)| < MAXVAL) := by
  obtain ⟨h1, h2, h3⟩ := floor_shift_vs_roundAway (adr_rolls psr wl adr)
  have hM : (0:ℚ) < MAXVAL := by norm_num [MAXVAL]
  have heq : adr_reconstruct psr wl adr + adr -
      MAXVAL * ((roundAway (adr_rolls psr wl adr) : ℤ) : ℚ) =
      MAXVAL * (((⌊adr_rolls psr wl adr +
        (if adr_rolls psr wl adr ≤ 0 then -(1/2:ℚ) else 1/2)⌋ : ℤ) : ℚ) -
        ((roundAway (adr_rolls psr wl adr) : ℤ) : ℚ)) := by
    unfold adr_reconstruct
    ring
  have h1q : ((roundAway (adr_rolls psr wl adr) : ℤ) : ℚ) - 1 ≤
      ((⌊adr_rolls psr wl adr + (if adr_rolls psr wl adr ≤ 0 then -(1/2:ℚ) else 1/2)⌋ : ℤ) : ℚ) := by
    exact_mod_cast h1
  have h2q : ((⌊adr_rolls psr wl adr + (if adr_rolls psr wl adr ≤ 0 then -(1/2:ℚ) else 1/2)⌋ : ℤ) : ℚ) ≤
      ((roundAway (adr_rolls psr wl adr) : ℤ) : ℚ) := by
    exact_mod_cast h2
  constructor
  · rw [heq, abs_mul, abs_of_pos hM]
    have hd : |(((⌊adr_rolls psr wl adr +
        (if adr_rolls psr wl adr ≤ 0 then -(1/2:ℚ) else 1/2)⌋ : ℤ) : ℚ) -
        ((roundAway (adr_rolls psr wl adr) : ℤ) : ℚ))| ≤ 1 := by
      rw [abs_le]
      constructor <;> linarith
    calc MAXVAL * |(((⌊adr_rolls psr wl adr +
          (if adr_rolls psr wl adr ≤ 0 then -(1/2:ℚ) else 1/2)⌋ : ℤ) : ℚ) -
          ((roundAway (adr_rolls psr wl adr) : ℤ) : ℚ))| ≤ MAXVAL * 1 :=
        mul_le_mul_of_nonneg_left hd (le_of_lt hM)
      _ = MAXVAL := mul_one _
  · intro hx
    rw [heq, h3 hx]
    simp [hM]

/-- Witness for C2 (amended): a record with positive `adr_rolls` attains
the strict bound. -/
theorem adr_reconstruct_within_one_roll_witness :
    0 < adr_rolls 1 1 0 ∧
    |adr_reconstruct 1 1 0 + 0 - MAXVAL * ((roundAway (adr_rolls 1 1 0) : ℤ) : ℚ)| < MAXVAL := by
  have h : 0 < adr_rolls 1 1 0 := of_decide_eq_true (by with_unfolding_all rfl)
  exact ⟨h, (adr_reconstruct_within_one_roll 1 1 0).2 h⟩

/-- The RANGE loop cannot fail: once the length check passes the return
code is 1, whatever the records contain. -/
theorem decode_rangeb_ret_one (raw : RawT)
    (h : ¬ raw.len < UNICOREHLEN + 4 + U4 raw.buff UNICOREHLEN * 44) :
    (decode_rangeb raw).1 = 1 := by
  unfold decode_rangeb
  rw [if_neg h]

/-- The RANGECMP loop cannot fail: once the length check passes the return
code is 1, whatever the records contain. -/
theorem decode_rangecmpb_ret_one (raw : RawT)
    (h : ¬ raw.len < UNICOREHLEN + 4 + U4 raw.buff UNICOREHLEN * 24) :
    (decode_rangecmpb raw).1 = 1 := by
  unfold decode_rangecmpb
  rw [if_neg h]

/-- C8: for every CRC-valid RANGE or RANGECMP frame whose length is at
least 28 + 4 + (44 or 24)·nobs, the decoder returns 1, even when nobs = 0
or every record is skipped; return code 1 does not imply any observation
was stored. -/
theorem range_frames_return_one (raw : RawT) :
    ((¬ raw.len < UNICOREHLEN + 4 + U4 raw.buff UNICOREHLEN * 44) →
      (decode_rangeb raw).1 = 1) ∧
    ((¬ raw.len < UNICOREHLEN + 4 + U4 raw.buff UNICOREHLEN * 24) →
      (decode_rangecmpb raw).1 = 1) ∧
    (rtk_crc32 raw.buff raw.len = U4 raw.buff raw.len → U2 raw.buff 14 ≠ 0 →
      U2 raw.buff 4 = 43 →
      (¬ raw.len < UNICOREHLEN + 4 + U4 raw.buff UNICOREHLEN * 44) →
      (decode_unicore raw).1 = 1) ∧
    (rtk_crc32 raw.buff raw.len = U4 raw.buff raw.len → U2 raw.buff 14 ≠ 0 →
      U2 raw.buff 4 = 140 →
      (¬ raw.len < UNICOREHLEN + 4 + U4 raw.buff UNICOREHLEN * 24) →
      (decode_unicore raw).1 = 1) := by
  refine ⟨decode_rangeb_ret_one raw, decode_rangecmpb_ret_one raw, ?_, ?_⟩
  · intro hcrc hweek htype hlen
    unfold decode_unicore
    rw [if_neg (not_not_intro hcrc), if_neg hweek, if_pos htype]
    exact decode_rangeb_ret_one _ hlen
  · intro hcrc hweek htype hlen
    unfold decode_unicore
    rw [if_neg (not_not_intro hcrc), if_neg hweek]
    rw [if_neg (by rw [htype]; decide), if_pos htype]
    exact decode_rangecmpb_ret_one _ hlen

def buffC8 : List Nat :=
  [0,0,0,0, 43,0, 0,0, 0,0, 0,0, 0,0, 1,0] ++ List.replicate 16 0 ++ [142,250,156,214]

def rawC8 : RawT := { buff := buffOf buffC8, len := 32 }

def buffC8c : List Nat :=
  [0,0,0,0, 140,0, 0,0, 0,0, 0,0, 0,0, 1,0] ++ List.replicate 16 0 ++ [253,36,212,62]

def rawC8c : RawT := { buff := buffOf buffC8c, len := 32 }

/-- Witness for C8: two concrete CRC-valid frames with nobs = 0 (one
RANGE, one RANGECMP) each return 1. -/
theorem range_frames_return_one_witness :
    (decode_rangeb rawC8).1 = 1 ∧ (decode_rangecmpb rawC8).1 = 1 ∧
    (decode_unicore rawC8).1 = 1 ∧ (decode_unicore rawC8c).1 = 1 := by
  have h := range_frames_return_one rawC8
  have hc := range_frames_return_one rawC8c
  refine ⟨h.1 (by decide), h.2.1 (by decide), ?_, ?_⟩
  · exact h.2.2.1 (by with_unfolding_all rfl) (by decide) (by decide) (by decide)
  · exact hc.2.2.2 (by with_unfolding_all rfl) (by decide) (by decide) (by decide)

/-- C5: for every ephemeris decoder, if the options string does not
contain -EPHALL and a second ephemeris arrives that is identical on that
constellation's dedup key (GPS: TOE, IODE, IODC; GLO: |ΔTOE| < 1 s and
health; GAL: IODNav and data-source code bits; BDS: TOE, AODE, AODC), the
decoder returns 0 and the stored ephemeris is unchanged; otherwise (in
particular whenever -EPHALL is present) it returns 2 and the new ephemeris
overwrites the stored one. -/
theorem ephemeris_dedup_behavior (raw : RawT) :
    ((¬ raw.len < UNICOREHLEN + 224 → satno SYS_GPS (U2 raw.buff 28 : ℤ) ≠ 0 →
      I4 raw.buff 44 = I4 raw.buff 48 →
      ((¬ strstr raw.opt "-EPHALL" ∧
        timediff (raw.nav.eph (satno SYS_GPS (U2 raw.buff 28 : ℤ) - 1)).toe
          (gpseph_of raw.buff raw.time).toe = 0 ∧
        (raw.nav.eph (satno SYS_GPS (U2 raw.buff 28 : ℤ) - 1)).iode =
          (gpseph_of raw.buff raw.time).iode ∧
        (raw.nav.eph (satno SYS_GPS (U2 raw.buff 28 : ℤ) - 1)).iodc =
          (gpseph_of raw.buff raw.time).iodc) →
        decode_gpsephemb raw = (0, raw)) ∧
      (¬ (¬ strstr raw.opt "-EPHALL" ∧
        timediff (raw.nav.eph (satno SYS_GPS (U2 raw.buff 28 : ℤ) - 1)).toe
          (gpseph_of raw.buff raw.time).toe = 0 ∧
        (raw.nav.eph (satno SYS_GPS (U2 raw.buff 28 : ℤ) - 1)).iode =
          (gpseph_of raw.buff raw.time).iode ∧
        (raw.nav.eph (satno SYS_GPS (U2 raw.buff 28 : ℤ) - 1)).iodc =
          (gpseph_of raw.buff raw.time).iodc) →
        decode_gpsephemb raw = (2, { raw with
          nav := { raw.nav with eph := Function.update raw.nav.eph (satno SYS_GPS (U2 raw.buff 28 : ℤ) - 1) (gpseph_of raw.buff raw.time) },
          ephsat := satno SYS_GPS (U2 raw.buff 28 : ℤ) }))) ∧
     (¬ raw.len < UNICOREHLEN + 144 → satno SYS_GLO ((U2 raw.buff 28 : ℤ) - 37) ≠ 0 →
      ((¬ strstr raw.opt "-EPHALL" ∧
        |timediff (gloeph_of raw.buff).toe
          (raw.nav.geph ((U2 raw.buff 28 : ℤ) - 37 - 1).toNat).toe| < 1 ∧
        (gloeph_of raw.buff).svh =
          (raw.nav.geph ((U2 raw.buff 28 : ℤ) - 37 - 1).toNat).svh) →
        decode_gloephemerisb raw = (0, raw)) ∧
      (¬ (¬ strstr raw.opt "-EPHALL" ∧
        |timediff (gloeph_of raw.buff).toe
          (raw.nav.geph ((U2 raw.buff 28 : ℤ) - 37 - 1).toNat).toe| < 1 ∧
        (gloeph_of raw.buff).svh =
          (raw.nav.geph ((U2 raw.buff 28 : ℤ) - 37 - 1).toNat).svh) →
        decode_gloephemerisb raw = (2, { raw with
          nav := { raw.nav with geph := Function.update raw.nav.geph ((U2 raw.buff 28 : ℤ) - 37 - 1).toNat { gloeph_of raw.buff with sat := satno SYS_GLO ((U2 raw.buff 28 : ℤ) - 37) } },
          ephsat := satno SYS_GLO ((U2 raw.buff 28 : ℤ) - 37) }))) ∧
     (¬ raw.len < UNICOREHLEN + 220 → satno SYS_GAL (U4 raw.buff 28 : ℤ) ≠ 0 →
      ((¬ strstr raw.opt "-EPHALL" ∧
        (raw.nav.eph (satno SYS_GAL (U4 raw.buff 28 : ℤ) - 1)).iode =
          (galeph_of raw.buff raw.time raw.opt).iode ∧
        (raw.nav.eph (satno SYS_GAL (U4 raw.buff 28 : ℤ) - 1)).codeBits =
          (galeph_of raw.buff raw.time raw.opt).codeBits) →
        decode_galephemerisb raw = (0, raw)) ∧
      (¬ (¬ strstr raw.opt "-EPHALL" ∧
        (raw.nav.eph (satno SYS_GAL (U4 raw.buff 28 : ℤ) - 1)).iode =
          (galeph_of raw.buff raw.time raw.opt).iode ∧
        (raw.nav.eph (satno SYS_GAL (U4 raw.buff 28 : ℤ) - 1)).codeBits =
          (galeph_of raw.buff raw.time raw.opt).codeBits) →
        decode_galephemerisb raw = (2, { raw with
          nav := { raw.nav with eph := Function.update raw.nav.eph (satno SYS_GAL (U4 raw.buff 28 : ℤ) - 1) (galeph_of raw.buff raw.time raw.opt) },
          ephsat := satno SYS_GAL (U4 raw.buff 28 : ℤ) }))) ∧
     (¬ raw.len < UNICOREHLEN + 232 → satno SYS_CMP (U4 raw.buff 28 : ℤ) ≠ 0 →
      ((¬ strstr raw.opt "-EPHALL" ∧
        timediff (raw.nav.eph (satno SYS_CMP (U4 raw.buff 28 : ℤ) - 1)).toe
          (bd2eph_of raw.buff raw.time).toe = 0 ∧
        (raw.nav.eph (satno SYS_CMP (U4 raw.buff 28 : ℤ) - 1)).iode =
          (bd2eph_of raw.buff raw.time).iode ∧
        (raw.nav.eph (satno SYS_CMP (U4 raw.buff 28 : ℤ) - 1)).iodc =
          (bd2eph_of raw.buff raw.time).iodc) →
        decode_bd2ephemb raw = (0, raw)) ∧
      (¬ (¬ strstr raw.opt "-EPHALL" ∧
        timediff (raw.nav.eph (satno SYS_CMP (U4 raw.buff 28 : ℤ) - 1)).toe
          (bd2eph_of raw.buff raw.time).toe = 0 ∧
        (raw.nav.eph (satno SYS_CMP (U4 raw.buff 28 : ℤ) - 1)).iode =
          (bd2eph_of raw.buff raw.time).iode ∧
        (raw.nav.eph (satno SYS_CMP (U4 raw.buff 28 : ℤ) - 1)).iodc =
          (bd2eph_of raw.buff raw.time).iodc) →
        decode_bd2ephemb raw = (2, { raw with
          nav := { raw.nav with eph := Function.update raw.nav.eph (satno SYS_CMP (U4 raw.buff 28 : ℤ) - 1) (bd2eph_of raw.buff raw.time) },
          ephsat := satno SYS_CMP (U4 raw.buff 28 : ℤ) })))) := by
  refine ⟨fun hlen hsat hiode => ⟨fun hk => ?_, fun hk => ?_⟩,
          fun hlen hsat => ⟨fun hk => ?_, fun hk => ?_⟩,
          fun hlen hsat => ⟨fun hk => ?_, fun hk => ?_⟩,
          fun hlen hsat => ⟨fun hk => ?_, fun hk => ?_⟩⟩
  · unfold decode_gpsephemb
    rw [if_neg hlen, if_neg hsat, if_neg (not_not_intro hiode), if_pos hk]
  · unfold decode_gpsephemb
    rw [if_neg hlen, if_neg hsat, if_neg (not_not_intro hiode), if_neg hk]
  · unfold decode_gloephemerisb
    rw [if_neg hlen, if_neg hsat, if_pos hk]
  · unfold decode_gloephemerisb
    rw [if_neg hlen, if_neg hsat, if_neg hk]
  · unfold decode_galephemerisb
    rw [if_neg hlen, if_neg hsat, if_pos hk]
  · unfold decode_galephemerisb
    rw [if_neg hlen, if_neg hsat, if_neg hk]
  · unfold decode_bd2ephemb
    rw [if_neg hlen, if_neg hsat, if_pos hk]
  · unfold decode_bd2ephemb
    rw [if_neg hlen, if_neg hsat, if_neg hk]

def buffG : Nat → Nat := fun i => if i = 28 then 1 else 0

def rawG0 : RawT := { buff := buffG, len := 252, nav := { eph := fun _ => gpseph_of buffG 0 } }

def rawG2 : RawT := { rawG0 with opt := ["-EPHALL"] }

def buffR : Nat → Nat := fun i => if i = 28 then 38 else 0

def rawR0 : RawT := { buff := buffR, len := 172, nav := { geph := fun _ => gloeph_of buffR } }

def rawR2 : RawT := { rawR0 with opt := ["-EPHALL"] }

def rawE0 : RawT := { buff := buffG, len := 248, nav := { eph := fun _ => galeph_of buffG 0 [] } }

def rawE2 : RawT := { rawE0 with nav := { eph := fun _ => galeph_of buffG 0 ["-EPHALL"] }, opt := ["-EPHALL"] }

def rawB0 : RawT := { buff := buffG, len := 260, nav := { eph := fun _ => bd2eph_of buffG 0 } }

def rawB2 : RawT := { rawB0 with opt := ["-EPHALL"] }

/-- Witness for C5: concrete duplicate frames of each constellation return
0 and leave the state intact, and the same frames with -EPHALL return 2
and overwrite. -/
theorem ephemeris_dedup_behavior_witness :
    decode_gpsephemb rawG0 = (0, rawG0) ∧
    decode_gpsephemb rawG2 = (2, { rawG2 with
      nav := { rawG2.nav with eph := Function.update rawG2.nav.eph (satno SYS_GPS (U2 rawG2.buff 28 : ℤ) - 1) (gpseph_of rawG2.buff rawG2.time) },
      ephsat := satno SYS_GPS (U2 rawG2.buff 28 : ℤ) }) ∧
    decode_gloephemerisb rawR0 = (0, rawR0) ∧
    decode_gloephemerisb rawR2 = (2, { rawR2 with
      nav := { rawR2.nav with geph := Function.update rawR2.nav.geph ((U2 rawR2.buff 28 : ℤ) - 37 - 1).toNat { gloeph_of rawR2.buff with sat := satno SYS_GLO ((U2 rawR2.buff 28 : ℤ) - 37) } },
      ephsat := satno SYS_GLO ((U2 rawR2.buff 28 : ℤ) - 37) }) ∧
    decode_galephemerisb rawE0 = (0, rawE0) ∧
    decode_galephemerisb rawE2 = (2, { rawE2 with
      nav := { rawE2.nav with eph := Function.update rawE2.nav.eph (satno SYS_GAL (U4 rawE2.buff 28 : ℤ) - 1) (galeph_of rawE2.buff rawE2.time rawE2.opt) },
      ephsat := satno SYS_GAL (U4 rawE2.buff 28 : ℤ) }) ∧
    decode_bd2ephemb rawB0 = (0, rawB0) ∧
    decode_bd2ephemb rawB2 = (2, { rawB2 with
      nav := { rawB2.nav with eph := Function.update rawB2.nav.eph (satno SYS_CMP (U4 rawB2.buff 28 : ℤ) - 1) (bd2eph_of rawB2.buff rawB2.time) },
      ephsat := satno SYS_CMP (U4 rawB2.buff 28 : ℤ) }) := by
  refine ⟨?_, ?_, ?_, ?_, ?_, ?_, ?_, ?_⟩
  · exact (ephemeris_dedup_behavior rawG0).1 (by decide) (by decide) (by decide) |>.1
      ⟨by decide,
       by show timediff (gpseph_of buffG 0).toe (gpseph_of buffG 0).toe = 0; simp [timediff],
       rfl, rfl⟩
  · exact (ephemeris_dedup_behavior rawG2).1 (by decide) (by decide) (by decide) |>.2
      (fun h => h.1 (by decide))
  · exact (ephemeris_dedup_behavior rawR0).2.1 (by decide) (by decide) |>.1
      ⟨by decide,
       by show |timediff (gloeph_of buffR).toe (gloeph_of buffR).toe| < 1; simp [timediff],
       rfl⟩
  · exact (ephemeris_dedup_behavior rawR2).2.1 (by decide) (by decide) |>.2
      (fun h => h.1 (by decide))
  · exact (ephemeris_dedup_behavior rawE0).2.2.1 (by decide) (by decide) |>.1
      ⟨by decide, rfl, rfl⟩
  · exact (ephemeris_dedup_behavior rawE2).2.2.1 (by decide) (by decide) |>.2
      (fun h => h.1 (by decide))
  · exact (ephemeris_dedup_behavior rawB0).2.2.2 (by decide) (by decide) |>.1
      ⟨by decide,
       by show timediff (bd2eph_of buffG 0).toe (bd2eph_of buffG 0).toe = 0; simp [timediff],
       rfl, rfl⟩
  · exact (ephemeris_dedup_behavior rawB2).2.2.2 (by decide) (by decide) |>.2
      (fun h => h.1 (by decide))

def buffC6 : List Nat :=
  List.replicate 28 0 ++ [1,0,0,0] ++
  [40,0] ++ [10,0] ++
  List.replicate 36 0 ++
  [4,28,1,0]

def rawC6 : RawT :=
  { buff := buffOf buffC6, len := 76,
    nav := { geph := Function.update (fun _ => ({} : GephT)) 2 { sat := 35, frq := 5 } } }

/-- C6 counterexample: a GLONASS RANGE record (PRN 3, received channel 10)
whose navigation slot already belongs to the same satellite keeps the
stored channel 5, although it differs from received − 7 = 3; the claimed
update-on-difference does not happen. -/
theorem glonass_channel_claim_counterexample :
    (U2 rawC6.buff 34 : ℤ) - 7 = 3 ∧
    (rawC6.nav.geph 2).frq = 5 ∧
    ((decode_rangeb rawC6).2.obs.n = 1) ∧
    ((decode_rangeb rawC6).2.nav.geph 2).frq = 5 ∧
    ((decode_rangeb rawC6).2.nav.geph 2).frq ≠ (U2 rawC6.buff 34 : ℤ) - 7 := by
  have h1 : (U2 rawC6.buff 34 : ℤ) - 7 = 3 := by with_unfolding_all rfl
  have h4 : ((decode_rangeb rawC6).2.nav.geph 2).frq = 5 := by with_unfolding_all rfl
  refine ⟨h1, by with_unfolding_all rfl, by with_unfolding_all rfl, h4, ?_⟩
  rw [h1, h4]
  decide

/-- C6 (amended): for every GLONASS RANGE record that passes the
tracking-status, slot, satellite-number and parity checks, the navigation
store's channel for that PRN is set to (received channel − 7) exactly when
the stored slot's satellite number differs from the record's satellite
number; otherwise the navigation store is unchanged. -/
theorem glonass_channel_update_guard (raw : RawT) (off : Nat) (ts : TrackStat)
    (hts : decode_trackstat (U4 raw.buff (off + 40)) = some ts)
    (hsys : ts.sys = SYS_GLO)
    (hpos : ¬ checkpri raw.opt ts.sys ts.code ts.freq < 0)
    (hsat : satno SYS_GLO ((U2 raw.buff off : ℤ) - 37) ≠ 0)
    (hpar : ts.parity ≠ 0) :
    ((raw.nav.geph ((U2 raw.buff off : ℤ) - 37 - 1).toNat).sat ≠
        satno SYS_GLO ((U2 raw.buff off : ℤ) - 37) →
      (rangeb_rec raw off).nav = { raw.nav with geph := Function.update raw.nav.geph ((U2 raw.buff off : ℤ) - 37 - 1).toNat { raw.nav.geph ((U2 raw.buff off : ℤ) - 37 - 1).toNat with frq := (U2 raw.buff (off + 2) : ℤ) - 7 } }) ∧
    ((raw.nav.geph ((U2 raw.buff off : ℤ) - 37 - 1).toNat).sat =
        satno SYS_GLO ((U2 raw.buff off : ℤ) - 37) →
      (rangeb_rec raw off).nav = raw.nav) := by
  simp only [rangeb_rec, hts]
  rw [if_neg hpos]
  simp only [hsys, if_pos rfl, eq_self_iff_true, true_and, if_true]
  rw [if_neg hsat, if_neg hpar]
  constructor
  · intro hne
    rw [if_pos hne]
  · intro heq
    rw [if_neg (not_not_intro heq)]

def buffC6b : Nat → Nat := buffOf buffC6

def rawC6b : RawT := { buff := buffC6b, len := 76 }

/-- Witness for C6 (amended): on the same frame with an unclaimed
navigation slot (satellite 0) the channel is written. -/
theorem glonass_channel_update_guard_witness :
    (rangeb_rec rawC6b 32).nav = { rawC6b.nav with geph := Function.update rawC6b.nav.geph ((U2 rawC6b.buff 32 : ℤ) - 37 - 1).toNat { rawC6b.nav.geph ((U2 rawC6b.buff 32 : ℤ) - 37 - 1).toNat with frq := (U2 rawC6b.buff (32 + 2) : ℤ) - 7 } } := by
  refine (glonass_channel_update_guard rawC6b 32
    { freq := 0, sys := SYS_GLO, code := CODE_L1C, track := 4,
      plock := 1, clock := 1, parity := 1, halfc := 0 }
    (by decide) rfl (by decide) (by decide) (by decide)).1 (by decide)

/-- C10: for every record accepted by the RANGE or RANGECMP decoder, the
per-(satellite, slot) lock-state arrays (last observation time, last
lock-time, last half-cycle flag) are updated to the current values even
when the observation itself is dropped because the epoch buffer already
holds MAXOBS entries, so the dropped observation still influences the LLI
of the next observation for that (satellite, slot). -/
theorem lock_state_updated_even_when_obs_full (raw : RawT) (off : Nat) (ts : TrackStat) :
    ((decode_trackstat (U4 raw.buff (off + 40)) = some ts ∧
      ¬ checkpri raw.opt ts.sys ts.code ts.freq < 0 ∧
      satno ts.sys (if ts.sys = SYS_GLO then (U2 raw.buff off : ℤ) - 37 else (U2 raw.buff off : ℤ)) ≠ 0 ∧
      ¬ (ts.sys = SYS_GLO ∧ ts.parity = 0) ∧
      raw.obs.n ≥ MAXOBS ∧
      ¬ |timediff (raw.obs.data 0).time raw.time| > 1/1000000000) →
      ((rangeb_rec raw off).tobs
          (satno ts.sys (if ts.sys = SYS_GLO then (U2 raw.buff off : ℤ) - 37 else (U2 raw.buff off : ℤ)) - 1)
          (checkpri raw.opt ts.sys ts.code ts.freq).toNat = raw.time ∧
       (rangeb_rec raw off).lockt
          (satno ts.sys (if ts.sys = SYS_GLO then (U2 raw.buff off : ℤ) - 37 else (U2 raw.buff off : ℤ)) - 1)
          (checkpri raw.opt ts.sys ts.code ts.freq).toNat = R4 raw.buff (off + 36) ∧
       (rangeb_rec raw off).halfc
          (satno ts.sys (if ts.sys = SYS_GLO then (U2 raw.buff off : ℤ) - 37 else (U2 raw.buff off : ℤ)) - 1)
          (checkpri raw.opt ts.sys ts.code ts.freq).toNat = ts.halfc ∧
       (rangeb_rec raw off).obs = raw.obs)) ∧
    ((decode_trackstat (U4 raw.buff off) = some ts ∧
      ¬ checkpri raw.opt ts.sys ts.code ts.freq < 0 ∧
      satno ts.sys (if ts.sys = SYS_GLO then (U1 raw.buff (off + 17) : ℤ) - 37 else (U1 raw.buff (off + 17) : ℤ)) ≠ 0 ∧
      ¬ (ts.sys = SYS_GLO ∧ ts.parity = 0) ∧
      raw.obs.n ≥ MAXOBS ∧
      ¬ |timediff (raw.obs.data 0).time raw.time| > 1/1000000000) →
      ((rangecmpb_rec raw off).tobs
          (satno ts.sys (if ts.sys = SYS_GLO then (U1 raw.buff (off + 17) : ℤ) - 37 else (U1 raw.buff (off + 17) : ℤ)) - 1)
          (checkpri raw.opt ts.sys ts.code ts.freq).toNat = raw.time ∧
       (rangecmpb_rec raw off).lockt
          (satno ts.sys (if ts.sys = SYS_GLO then (U1 raw.buff (off + 17) : ℤ) - 37 else (U1 raw.buff (off + 17) : ℤ)) - 1)
          (checkpri raw.opt ts.sys ts.code ts.freq).toNat = ((U4 raw.buff (off + 18) &&& 0x1FFFFF : Nat) : ℚ) / 32 ∧
       (rangecmpb_rec raw off).halfc
          (satno ts.sys (if ts.sys = SYS_GLO then (U1 raw.buff (off + 17) : ℤ) - 37 else (U1 raw.buff (off + 17) : ℤ)) - 1)
          (checkpri raw.opt ts.sys ts.code ts.freq).toNat = ts.halfc ∧
       (rangecmpb_rec raw off).obs = raw.obs)) := by
  constructor
  · rintro ⟨hts, hpos, hsat, hglo, hfull, hflush⟩
    have hobs : store_obs (epoch_flush raw.obs raw.time) raw.time
        (satno ts.sys (if ts.sys = SYS_GLO then (U2 raw.buff off : ℤ) - 37 else (U2 raw.buff off : ℤ)))
        (checkpri raw.opt ts.sys ts.code ts.freq).toNat
        (-(zero_unlock ts.clock ts.plock (R8 raw.buff (off + 4)) (R8 raw.buff (off + 16)) (R4 raw.buff (off + 28))).2.1)
        (zero_unlock ts.clock ts.plock (R8 raw.buff (off + 4)) (R8 raw.buff (off + 16)) (R4 raw.buff (off + 28))).1
        (zero_unlock ts.clock ts.plock (R8 raw.buff (off + 4)) (R8 raw.buff (off + 16)) (R4 raw.buff (off + 28))).2.2
        (R4 raw.buff (off + 32))
        (lli_flags (lli_slip_range (raw.tobs (satno ts.sys (if ts.sys = SYS_GLO then (U2 raw.buff off : ℤ) - 37 else (U2 raw.buff off : ℤ)) - 1) (checkpri raw.opt ts.sys ts.code ts.freq).toNat) (raw.lockt (satno ts.sys (if ts.sys = SYS_GLO then (U2 raw.buff off : ℤ) - 37 else (U2 raw.buff off : ℤ)) - 1) (checkpri raw.opt ts.sys ts.code ts.freq).toNat) raw.time (R4 raw.buff (off + 36))) ts.parity ts.halfc)
        ts.code = raw.obs := by
      unfold epoch_flush
      rw [if_neg hflush]
      unfold store_obs obsindex
      rw [if_pos hfull]
      norm_num
    simp only [rangeb_rec, hts]
    rw [if_neg hpos, if_neg hsat, if_neg hglo]
    refine ⟨?_, ?_, ?_, ?_⟩ <;> simp [upd2, hobs]
  · rintro ⟨hts, hpos, hsat, hglo, hfull, hflush⟩
    have hobs : ∀ L P dop snr lli code, store_obs (epoch_flush raw.obs raw.time) raw.time
        (satno ts.sys (if ts.sys = SYS_GLO then (U1 raw.buff (off + 17) : ℤ) - 37 else (U1 raw.buff (off + 17) : ℤ)))
        (checkpri raw.opt ts.sys ts.code ts.freq).toNat L P dop snr lli code = raw.obs := by
      intro L P dop snr lli code
      unfold epoch_flush
      rw [if_neg hflush]
      unfold store_obs obsindex
      rw [if_pos hfull]
      norm_num
    simp only [rangecmpb_rec, hts]
    rw [if_neg hpos, if_neg hsat, if_neg hglo]
    refine ⟨?_, ?_, ?_, ?_⟩ <;> simp [upd2, hobs]

def tsW : TrackStat :=
  { freq := 0, sys := SYS_GPS, code := CODE_L1C, track := 4,
    plock := 1, clock := 1, parity := 1, halfc := 0 }

def buffW10 : List Nat :=
  List.replicate 28 0 ++ [1,0,0,0] ++ [5,0] ++ [0,0] ++
  List.replicate 32 0 ++ [0,0,0,64] ++ [4,28,0,0]

def rawW10 : RawT :=
  { buff := buffOf buffW10, len := 76, obs := { n := 64, data := fun _ => {} } }

def rawW10c : RawT :=
  { buff := buffOf buffC2, len := 56, obs := { n := 64, data := fun _ => {} } }

/-- Witness for C10: with a full epoch buffer (n = MAXOBS), a GPS RANGE
record still updates the lock time to 2 s and leaves the buffer as it
was; likewise on the RANGECMP path. -/
theorem lock_state_updated_even_when_obs_full_witness :
    (rangeb_rec rawW10 32).lockt 4 0 = 2 ∧
    (rangeb_rec rawW10 32).tobs 4 0 = rawW10.time ∧
    (rangeb_rec rawW10 32).obs = rawW10.obs ∧
    (rangecmpb_rec rawW10c 32).tobs 4 0 = rawW10c.time ∧
    (rangecmpb_rec rawW10c 32).obs = rawW10c.obs := by
  have h := (lock_state_updated_even_when_obs_full rawW10 32 tsW).1
    ⟨by decide, by decide, by decide, by decide, by decide,
     of_decide_eq_true (by with_unfolding_all rfl)⟩
  have hc := (lock_state_updated_even_when_obs_full rawW10c 32 tsW).2
    ⟨by decide, by decide, by decide, by decide, by decide,
     of_decide_eq_true (by with_unfolding_all rfl)⟩
  have e1 : satno tsW.sys (if tsW.sys = SYS_GLO then (U2 rawW10.buff 32 : ℤ) - 37 else (U2 rawW10.buff 32 : ℤ)) - 1 = 4 := by decide
  have e2 : (checkpri rawW10.opt tsW.sys tsW.code tsW.freq).toNat = 0 := by decide
  have e3 : R4 rawW10.buff (32 + 36) = 2 := by with_unfolding_all rfl
  have e4 : satno tsW.sys (if tsW.sys = SYS_GLO then (U1 rawW10c.buff (32 + 17) : ℤ) - 37 else (U1 rawW10c.buff (32 + 17) : ℤ)) - 1 = 4 := by decide
  have e5 : (checkpri rawW10c.opt tsW.sys tsW.code tsW.freq).toNat = 0 := by decide
  rw [e1, e2, e3] at h
  rw [e4, e5] at hc
  exact ⟨h.2.1, h.1, h.2.2.2, hc.1, hc.2.2.2⟩

/-- Every exit of the RANGE decoder is −1 or 1. -/
theorem decode_rangeb_fst (raw : RawT) :
    (decode_rangeb raw).1 = -1 ∨ (decode_rangeb raw).1 = 1 := by
  simp only [decode_rangeb]
  split_ifs <;> simp

/-- Every exit of the RANGECMP decoder is −1 or 1. -/
theorem decode_rangecmpb_fst (raw : RawT) :
    (decode_rangecmpb raw).1 = -1 ∨ (decode_rangecmpb raw).1 = 1 := by
  simp only [decode_rangecmpb]
  split_ifs <;> simp

/-- Every exit of the GPS ephemeris decoder is −1, 0 or 2. -/
theorem decode_gpsephemb_fst (raw : RawT) :
    (decode_gpsephemb raw).1 = -1 ∨ (decode_gpsephemb raw).1 = 0 ∨
    (decode_gpsephemb raw).1 = 2 := by
  simp only [decode_gpsephemb]
  split_ifs <;> simp

/-- Every exit of the GLONASS ephemeris decoder is −1, 0 or 2. -/
theorem decode_gloephemerisb_fst (raw : RawT) :
    (decode_gloephemerisb raw).1 = -1 ∨ (decode_gloephemerisb raw).1 = 0 ∨
    (decode_gloephemerisb raw).1 = 2 := by
  simp only [decode_gloephemerisb]
  split_ifs <;> simp

/-- Every exit of the Galileo ephemeris decoder is −1, 0 or 2. -/
theorem decode_galephemerisb_fst (raw : RawT) :
    (decode_galephemerisb raw).1 = -1 ∨ (decode_galephemerisb raw).1 = 0 ∨
    (decode_galephemerisb raw).1 = 2 := by
  simp only [decode_galephemerisb]
  split_ifs <;> simp

/-- Every exit of the BeiDou ephemeris decoder is −1, 0 or 2. -/
theorem decode_bd2ephemb_fst (raw : RawT) :
    (decode_bd2ephemb raw).1 = -1 ∨ (decode_bd2ephemb raw).1 = 0 ∨
    (decode_bd2ephemb raw).1 = 2 := by
  simp only [decode_bd2ephemb]
  split_ifs <;> simp

theorem decode_rangeb_ne2 (raw : RawT) : (decode_rangeb raw).1 ≠ -2 := by
  rcases decode_rangeb_fst raw with h | h <;> rw [h] <;> decide

theorem decode_rangecmpb_ne2 (raw : RawT) : (decode_rangecmpb raw).1 ≠ -2 := by
  rcases decode_rangecmpb_fst raw with h | h <;> rw [h] <;> decide

theorem decode_gpsephemb_ne2 (raw : RawT) : (decode_gpsephemb raw).1 ≠ -2 := by
  rcases decode_gpsephemb_fst raw with h | h | h <;> rw [h] <;> decide

theorem decode_gloephemerisb_ne2 (raw : RawT) : (decode_gloephemerisb raw).1 ≠ -2 := by
  rcases decode_gloephemerisb_fst raw with h | h | h <;> rw [h] <;> decide

theorem decode_galephemerisb_ne2 (raw : RawT) : (decode_galephemerisb raw).1 ≠ -2 := by
  rcases decode_galephemerisb_fst raw with h | h | h <;> rw [h] <;> decide

theorem decode_bd2ephemb_ne2 (raw : RawT) : (decode_bd2ephemb raw).1 ≠ -2 := by
  rcases decode_bd2ephemb_fst raw with h | h | h <;> rw [h] <;> decide

/-- `decode_unicore` never produces the end-of-file code −2. -/
theorem decode_unicore_fst_ne (raw : RawT) : (decode_unicore raw).1 ≠ -2 := by
  simp only [decode_unicore]
  split_ifs <;>
    first
      | exact decode_rangeb_ne2 _
      | exact decode_rangecmpb_ne2 _
      | exact decode_gpsephemb_ne2 _
      | exact decode_gloephemerisb_ne2 _
      | exact decode_galephemerisb_ne2 _
      | exact decode_bd2ephemb_ne2 _
      | simp

/-- A `nosync` exit of the search loop advanced the file position by
exactly the fuel and never touched `nbyte`. -/
theorem syncLoop_nosync_advance : ∀ (fuel : Nat) (raw : RawT) (fp : FileT),
    (syncLoop raw fp fuel).tag = 0 →
    (syncLoop raw fp fuel).fp.pos = fp.pos + fuel ∧
    (syncLoop raw fp fuel).raw.nbyte = raw.nbyte := by
  intro fuel
  induction fuel with
  | zero => intro raw fp _; exact ⟨rfl, rfl⟩
  | succ n ih =>
    intro raw fp htag
    by_cases hp : fp.pos < fp.size
    · by_cases hs : (sync_unicore raw.buff (fp.byteAt fp.pos % 256)).2 = true
      · exfalso
        simp only [syncLoop, fgetc, if_pos hp, hs, if_true, SyncRes.tag] at htag
        exact absurd htag (by decide)
      · have hrec : syncLoop raw fp (n + 1) =
            syncLoop { raw with buff := (sync_unicore raw.buff (fp.byteAt fp.pos % 256)).1 }
              { fp with pos := fp.pos + 1 } n := by
          simp only [syncLoop, fgetc, if_pos hp]
          rw [if_neg hs]
        rw [hrec] at htag ⊢
        obtain ⟨h1, h2⟩ := ih _ _ htag
        refine ⟨?_, h2⟩
        rw [h1]
        show fp.pos + 1 + n = fp.pos + (n + 1)
        omega
    · exfalso
      simp only [syncLoop, fgetc, if_neg hp, SyncRes.tag] at htag
      exact absurd htag (by decide)

/-- The search loop preserves the file size, keeps the position within the
file, and exits with −2 only at the end of the file. -/
theorem syncLoop_size_inv : ∀ (fuel : Nat) (raw : RawT) (fp : FileT),
    fp.pos ≤ fp.size →
    (syncLoop raw fp fuel).fp.size = fp.size ∧
    (syncLoop raw fp fuel).fp.pos ≤ fp.size ∧
    ((syncLoop raw fp fuel).tag = 2 → (syncLoop raw fp fuel).fp.pos = fp.size) := by
  intro fuel
  induction fuel with
  | zero =>
    intro raw fp hle
    refine ⟨rfl, hle, fun htag => by simp [syncLoop, SyncRes.tag] at htag⟩
  | succ n ih =>
    intro raw fp hle
    by_cases hp : fp.pos < fp.size
    · by_cases hs : (sync_unicore raw.buff (fp.byteAt fp.pos % 256)).2 = true
      · have hfound : syncLoop raw fp (n + 1) =
            .found { raw with buff := (sync_unicore raw.buff (fp.byteAt fp.pos % 256)).1 }
              { fp with pos := fp.pos + 1 } := by
          simp only [syncLoop, fgetc, if_pos hp]
          rw [if_pos hs]
        rw [hfound]
        exact ⟨rfl, hp, fun htag => by simp [SyncRes.tag] at htag⟩
      · have hrec : syncLoop raw fp (n + 1) =
            syncLoop { raw with buff := (sync_unicore raw.buff (fp.byteAt fp.pos % 256)).1 }
              { fp with pos := fp.pos + 1 } n := by
          simp only [syncLoop, fgetc, if_pos hp]
          rw [if_neg hs]
        rw [hrec]
        exact ih _ _ hp
    · have heof : syncLoop raw fp (n + 1) = .eof raw fp := by
        simp only [syncLoop, fgetc, if_neg hp]
      rw [heof]
      exact ⟨rfl, hle, fun _ => le_antisymm hle (not_lt.mp hp)⟩

/-- A −2 exit of the frame-body reader leaves the position at the end of
the file. -/
theorem input_unicoref_body_eof (raw : RawT) (fp : FileT) :
    (input_unicoref_body raw fp).1 = -2 →
    (input_unicoref_body raw fp).2.2.pos = fp.size := by
  unfold input_unicoref_body
  rcases hf1 : freadInto raw.buff 3 fp 7 with _ | bf
  · intro _; rfl
  · have hsz1 : bf.2.size = fp.size := by
      unfold freadInto at hf1
      by_cases hc : fp.pos + 7 ≤ fp.size
      · rw [if_pos hc] at hf1
        cases hf1
        rfl
      · rw [if_neg hc] at hf1
        cases hf1
    simp only []
    split_ifs with hlen
    · intro h
      simp at h
    · rcases hf2 : freadInto bf.1 10 bf.2 (U2 bf.1 8 + UNICOREHLEN - 6) with _ | bf2
      · intro _
        exact hsz1
      · have hsz2 : bf2.2.size = bf.2.size := by
          unfold freadInto at hf2
          by_cases hc : bf.2.pos + (U2 bf.1 8 + UNICOREHLEN - 6) ≤ bf.2.size
          · rw [if_pos hc] at hf2
            cases hf2
            rfl
          · rw [if_neg hc] at hf2
            cases hf2
        intro h
        exact absurd h (decode_unicore_fst_ne _)

/-- C9: in file mode, when the decoder is unsynchronized (nbyte = 0),
`input_unicoref` reads at most 4097 bytes per call while searching for the
sync sequence: if no sync is found within that bound it returns 0 (not
−2), leaves `nbyte` at 0 and resumes from the advanced file position on
the next call; only a read hitting end of file yields −2. -/
theorem input_unicoref_sync_window (raw : RawT) (fp : FileT)
    (h0 : raw.nbyte = 0) (h1 : fp.pos ≤ fp.size) :
    ((syncLoop raw fp 4097).tag = 0 →
      input_unicoref raw fp = (0, (syncLoop raw fp 4097).raw, (syncLoop raw fp 4097).fp) ∧
      (syncLoop raw fp 4097).fp.pos = fp.pos + 4097 ∧
      (syncLoop raw fp 4097).raw.nbyte = 0) ∧
    ((input_unicoref raw fp).1 = -2 → (input_unicoref raw fp).2.2.pos = fp.size) := by
  constructor
  · intro htag
    obtain ⟨hpos, hnb⟩ := syncLoop_nosync_advance 4097 raw fp htag
    refine ⟨?_, hpos, by rw [hnb, h0]⟩
    unfold input_unicoref
    rw [if_pos h0]
    cases hs : syncLoop raw fp 4097 with
    | eof r f => rw [hs] at htag; simp [SyncRes.tag] at htag
    | nosync r f => simp only [hs, SyncRes.raw, SyncRes.fp]
    | found r f => rw [hs] at htag; simp [SyncRes.tag] at htag
  · intro hm2
    obtain ⟨hsz, hle2, heof⟩ := syncLoop_size_inv 4097 raw fp h1
    unfold input_unicoref at hm2 ⊢
    rw [if_pos h0] at hm2 ⊢
    cases hs : syncLoop raw fp 4097 with
    | eof r f =>
      rw [hs] at heof
      exact heof rfl
    | nosync r f =>
      rw [hs] at hm2
      simp at hm2
    | found r f =>
      rw [hs] at hm2 hsz
      simp only [] at hm2
      simp only [SyncRes.fp] at hsz
      have hb := input_unicoref_body_eof r f hm2
      exact hb.trans hsz

def rawW9 : RawT := {}

def fpW9 : FileT := { size := 4100, byteAt := fun _ => 0 }

/-- On an all-zero file the search loop always exhausts its window. -/
theorem syncLoop_zero_file : ∀ (fuel : Nat) (raw : RawT) (fp : FileT),
    (∀ i, fp.byteAt i = 0) → fp.pos + fuel ≤ fp.size →
    (syncLoop raw fp fuel).tag = 0 := by
  intro fuel
  induction fuel with
  | zero => intro raw fp _ _; rfl
  | succ n ih =>
    intro raw fp hz hle
    have hp : fp.pos < fp.size := by omega
    have hs : (sync_unicore raw.buff (fp.byteAt fp.pos % 256)).2 ≠ true := by
      rw [hz fp.pos]
      simp [sync_unicore]
    have hrec : syncLoop raw fp (n + 1) =
        syncLoop { raw with buff := (sync_unicore raw.buff (fp.byteAt fp.pos % 256)).1 }
          { fp with pos := fp.pos + 1 } n := by
      simp only [syncLoop, fgetc, if_pos hp]
      rw [if_neg hs]
    rw [hrec]
    refine ih _ _ hz ?_
    show fp.pos + 1 + n ≤ fp.size
    omega

/-- Witness for C9: a 4100-byte all-zero file yields return code 0 with
the position advanced by exactly 4097 bytes and `nbyte` still 0. -/
theorem input_unicoref_sync_window_witness :
    (input_unicoref rawW9 fpW9).1 = 0 ∧
    (syncLoop rawW9 fpW9 4097).fp.pos = fpW9.pos + 4097 ∧
    (syncLoop rawW9 fpW9 4097).raw.nbyte = 0 := by
  have htag : (syncLoop rawW9 fpW9 4097).tag = 0 :=
    syncLoop_zero_file 4097 rawW9 fpW9 (fun _ => rfl) (by decide)
  have h := (input_unicoref_sync_window rawW9 fpW9 rfl (by decide)).1 htag
  exact ⟨by rw [h.1], h.2.1, h.2.2⟩

/-- Witness for C4: all four flag consequences at a concrete record. -/
theorem unlock_zeroing_and_half_cycle_flags_witness :
    (zero_unlock 0 0 3 4 5).1 = 0 ∧
    -(zero_unlock 0 0 3 4 5).2.1 = 0 ∧
    (zero_unlock 0 0 3 4 5).2.2 = 0 ∧
    lli_flags (lli_slip_range 0 0 0 0) 0 1 &&& LLI_HALFC = LLI_HALFC ∧
    lli_flags (lli_slip_range 0 0 0 0) 0 1 &&& LLI_HALFA = LLI_HALFA := by
  have h := unlock_zeroing_and_half_cycle_flags 3 4 5 0 0 0 0 0 0 0 1
  exact ⟨h.1 rfl, (h.2.1 rfl).1, (h.2.1 rfl).2.2, (h.2.2.1 rfl).1, (h.2.2.2 rfl).1⟩

end Unicore
